/-
Verification of the conversational MRT review service
(backend/app/service/chat.py and backend/app/service/chat_file_handler.py).

The Python code is shallowly embedded: Python `str` is Lean `String`
(a sequence of unicode scalar values, matching Python's code-point view),
Python dicts keyed by strings are insertion-ordered association lists,
`Optional[T]` is `Option T`, and operations that can raise `KeyError`
return `Except String _`.  Non-deterministic uuid generation is made
explicit: every operation that generates a fresh identifier takes it as
an argument.  The streaming LLM client is a function parameter returning
the chunks it yields plus an optional exception message (the `str(exc)`
of the exception it raises after those chunks, if any).
-/
import Mathlib

set_option maxRecDepth 3000

/-! ### Python string primitives

Helpers mirroring the Python `str` operations used by the service.
They operate through `String.toList` so that list lemmas apply. -/

/-- Python `len(s)` (number of code points). -/
def pyLen (s : String) : Nat := s.toList.length

/-- Python `s[:n]` for `n ≥ 0`. -/
def pyTake (s : String) (n : Nat) : String := String.mk (s.toList.take n)

/-- Python `s[n:]` for `n ≥ 0`. -/
def pyDrop (s : String) (n : Nat) : String := String.mk (s.toList.drop n)

/-- Python `s.startswith(p)`. -/
def pyStartsWith (s p : String) : Bool := p.toList.isPrefixOf s.toList

/-- Python `p in s` (substring containment). -/
def pyContains (s p : String) : Bool := decide (p.toList <:+: s.toList)

/-- Python `s.lower()` (restricted to per-character lowercasing). -/
def pyLower (s : String) : String := String.mk (s.toList.map Char.toLower)

/-- Python `s.strip()` on the underlying character list: drop whitespace
from both ends. -/
def stripList (l : List Char) : List Char :=
  ((l.dropWhile Char.isWhitespace).reverse.dropWhile Char.isWhitespace).reverse

/-- Python `s.strip()`. -/
def pyStrip (s : String) : String := String.mk (stripList s.toList)

/-- Python `sep.join(parts)`. -/
def pyJoin (sep : String) : List String → String
  | [] => ""
  | [x] => x
  | x :: y :: t => x ++ sep ++ pyJoin sep (y :: t)

/-! ### Python dicts

Insertion-ordered association lists with the update semantics of a
Python dict: assigning to an existing key updates it in place, a new key
is appended at the end. -/

/-- Python `d.get(k)` / `d[k]` lookup. -/
def dictGet {β : Type} : List (String × β) → String → Option β
  | [], _ => none
  | (k, v) :: rest, key => if k = key then some v else dictGet rest key

/-- Python `d[k] = v`. -/
def dictSet {β : Type} : List (String × β) → String → β → List (String × β)
  | [], key, v => [(key, v)]
  | (k, w) :: rest, key, v =>
    if k = key then (key, v) :: rest else (k, w) :: dictSet rest key v

/-! ### Data model -/

/-- Conversation states.  Embeds `ConversationState` from `app/models`
(all five members are referenced by `chat.py`; the spec lists the same
five states in §4.1). -/
inductive ConversationState : Type
  | INITIAL
  | AWAITING_MRT
  | AWAITING_REQUIREMENT
  | REVIEWING
  | COMPLETED
deriving DecidableEq, Repr, Fintype

open ConversationState

/-- `MRTEntry`: one piece of MRT content.  The uuid-derived `id` is
supplied explicitly by the caller of `add_mrt`; `name` defaults to
`"MRT-" ++ id` as in `MRTEntry.__init__`. -/
structure MRTEntry : Type where
  id : String
  name : String
  content : String
deriving DecidableEq, Repr

/-- A session record as stored by `SessionStore` (the per-session dict
created by `SessionStore.create`). -/
structure Session : Type where
  state : ConversationState
  mrts : List (String × MRTEntry)
  current_mrt_id : Option String
  software_requirement : Option String
deriving DecidableEq, Repr

/-- The `SessionStore._sessions` dict. -/
abbrev Store : Type := List (String × Session)

/-- One conversation turn `{role, content}`. -/
structure Message : Type where
  role : String
  content : String
deriving DecidableEq, Repr

/-- One uploaded file descriptor, a Python dict that may lack either
key (`file_info.get(...)` supplies defaults). -/
structure FileInfo : Type where
  name : Option String
  content : Option String
deriving DecidableEq, Repr

/-- A checklist item `{id, description}` from the configuration. -/
structure ChecklistItem : Type where
  id : String
  description : String
deriving DecidableEq, Repr

/-- The turn input surface of `ChatService.chat_stream` (`ChatRequest`
from `app/models`; the fields are exactly those read by `chat.py`, and
the spec's §6 turn input surface plus the `messages` history). -/
structure ChatRequest : Type where
  session_id : Option String
  message : Option String
  mrt_content : Option String
  software_requirement : Option String
  files : Option (List FileInfo)
  messages : Option (List Message)
deriving DecidableEq, Repr

/-! ### SessionStore operations -/

/-- The fresh session record built by `SessionStore.create`. -/
def initialSession : Session :=
  { state := INITIAL, mrts := [], current_mrt_id := none,
    software_requirement := none }

/-- `SessionStore.create`, with the generated uuid passed in. -/
def SessionStore.create (σ : Store) (fresh_id : String) : Store × String :=
  (dictSet σ fresh_id initialSession, fresh_id)

/-- `SessionStore.get`. -/
def SessionStore.get (σ : Store) (session_id : String) : Option Session :=
  dictGet σ session_id

/-- `SessionStore.get_current_mrt`. -/
def SessionStore.get_current_mrt (σ : Store) (session_id : String) :
    Option MRTEntry :=
  match dictGet σ session_id with
  | none => none
  | some session =>
    match session.current_mrt_id with
    | none => none
    | some current_id =>
      -- `if not current_id: return None` (falsy string check)
      if current_id = "" then none else dictGet session.mrts current_id

/-- `SessionStore.has_mrt`: current entry exists and has non-blank
content (`bool(mrt.content.strip())`). -/
def SessionStore.has_mrt (σ : Store) (session_id : String) : Bool :=
  match SessionStore.get_current_mrt σ session_id with
  | none => false
  | some mrt => pyStrip mrt.content ≠ ""

/-- `SessionStore.has_requirement`. -/
def SessionStore.has_requirement (σ : Store) (session_id : String) : Bool :=
  match dictGet σ session_id with
  | none => false
  | some session =>
    match session.software_requirement with
    | none => false
    | some req => pyStrip req ≠ ""

/-- `SessionStore.can_start_review` (alias for `has_mrt`). -/
def SessionStore.can_start_review (σ : Store) (session_id : String) : Bool :=
  SessionStore.has_mrt σ session_id

/-- Internal update helper: apply `f` to the stored session if present,
otherwise leave the store unchanged.  The raising wrappers below add the
`KeyError` behaviour; `chat_stream` only ever mutates a session that it
has just created or fetched, so for it the two coincide. -/
def updateSession (σ : Store) (session_id : String) (f : Session → Session) :
    Store :=
  match dictGet σ session_id with
  | none => σ
  | some s => dictSet σ session_id (f s)

/-- The mutation performed by `SessionStore.add_mrt` on a known session:
create the entry, store it under its id, repoint `current_mrt_id`. -/
def SessionStore.add_mrtU (σ : Store) (session_id content : String)
    (name : Option String) (fresh_id : String) : Store :=
  updateSession σ session_id (fun s =>
    { s with
      mrts := dictSet s.mrts fresh_id
        { id := fresh_id, name := name.getD ("MRT-" ++ fresh_id),
          content := content },
      current_mrt_id := some fresh_id })

/-- `SessionStore.add_mrt`: raises `KeyError("Session not found")` on an
unknown session id, otherwise performs `add_mrtU` and returns the new
entry id. -/
def SessionStore.add_mrt (σ : Store) (session_id content : String)
    (name : Option String) (fresh_id : String) :
    Except String (Store × String) :=
  if (dictGet σ session_id).isSome then
    Except.ok (SessionStore.add_mrtU σ session_id content name fresh_id,
      fresh_id)
  else Except.error "Session not found"

/-- The mutation performed by `SessionStore.clear_mrt` on a known
session. -/
def SessionStore.clear_mrtU (σ : Store) (session_id : String) : Store :=
  updateSession σ session_id (fun s =>
    { s with mrts := [], current_mrt_id := none })

/-- `SessionStore.clear_mrt`: raises on an unknown session id. -/
def SessionStore.clear_mrt (σ : Store) (session_id : String) :
    Except String Store :=
  if (dictGet σ session_id).isSome then
    Except.ok (SessionStore.clear_mrtU σ session_id)
  else Except.error "Session not found"

/-- The mutation performed by `SessionStore.set_state` on a known
session. -/
def SessionStore.set_stateU (σ : Store) (session_id : String)
    (state : ConversationState) : Store :=
  updateSession σ session_id (fun s => { s with state := state })

/-- `SessionStore.set_state`: raises on an unknown session id. -/
def SessionStore.set_state (σ : Store) (session_id : String)
    (state : ConversationState) : Except String Store :=
  if (dictGet σ session_id).isSome then
    Except.ok (SessionStore.set_stateU σ session_id state)
  else Except.error "Session not found"

/-- The assignment `session["software_requirement"] = ...` done directly
by `chat_stream` through the session dict reference. -/
def setRequirementU (σ : Store) (session_id : String) (req : String) :
    Store :=
  updateSession σ session_id (fun s => { s with software_requirement := some req })

/-! ### The state machine -/

/-- `ChatService._determine_next_state`.  The Python function receives
the session dict but reads only `session["state"]`, passed here
directly.  The trailing `return current_state` of the Python code is
unreachable (all five states are covered above it). -/
def determine_next_state (current_state : ConversationState)
    (has_mrt has_req detected_new_mrt : Bool) : ConversationState :=
  if detected_new_mrt ∧ current_state ≠ INITIAL then
    if ¬has_req then AWAITING_REQUIREMENT else REVIEWING
  else
    match current_state with
    | INITIAL => if ¬has_mrt then AWAITING_MRT else REVIEWING
    | AWAITING_MRT => if has_mrt then AWAITING_REQUIREMENT else AWAITING_MRT
    | AWAITING_REQUIREMENT => if has_mrt then REVIEWING else AWAITING_MRT
    | REVIEWING => REVIEWING
    | COMPLETED => if has_mrt then REVIEWING else AWAITING_MRT

/-! ### Static messages and prompt assembly -/

/-- `ChatService._get_welcome_message`. -/
def welcome_message : String :=
  "您好！我是专业的MRT（手动回归测试）审查助手。\n\n我可以帮助您：\n1. 审查MRT测试用例是否符合checklist要求\n2. 对照软件需求文档，确保测试用例的完整覆盖\n3. 提供具体的改进建议\n\n请上传您的MRT文件（支持PDF、Word、TXT格式）或直接粘贴测试用例内容。"

/-- `ChatService._get_guidance_message`. -/
def get_guidance_message (state : ConversationState) : Option String :=
  match state with
  | AWAITING_MRT => some "请上传MRT文件（PDF、Word、TXT）或直接粘贴测试用例内容。"
  | AWAITING_REQUIREMENT =>
    some "MRT内容已收到。是否需要提供软件需求文档？(可选，如果不需要可以回复\x27跳过\x27或\x27开始review\x27)"
  | COMPLETED => some "Review已完成。如需review新的MRT内容，请上传新文件或粘贴内容。"
  | _ => none

/-- The `- id: description` rendering of one checklist line inside
`_build_system_prompt`. -/
def checklistLine (item : ChecklistItem) : String :=
  "- " ++ item.id ++ ": " ++ item.description

/-- The requirement coverage section of `_build_system_prompt`. -/
def requirement_section_text : String :=
  "\n\n当前有软件需求文档，请确保：\n1. 每个软件需求都被一个或多个测试用例覆盖\n2. 测试用例覆盖软件需求中描述的所有场景、条件、数据等\n3. 测试用例编号、标题、前置条件、测试步骤和验证点（预期结果）都有清晰描述\n"

/-- `ChatService._build_system_prompt`.  The checklist normally comes
from `get_config().default_checklist`; it is passed in here. -/
def build_system_prompt (checklist : List ChecklistItem)
    (state : ConversationState) (software_requirement : Option String) :
    String :=
  let checklist_string := pyJoin "\n" (checklist.map checklistLine)
  let has_requirement :=
    match software_requirement with
    | none => false
    | some r => pyStrip r ≠ ""
  let requirement_section :=
    if has_requirement then requirement_section_text else ""
  let base_prompt :=
    "你是一个专业的软件测试审查助手。你的任务是根据提供的checklist来review用户的MRT（手动回归测试）内容。\n\n当前的checklist包括：\n"
      ++ checklist_string ++ requirement_section
  match state with
  | INITIAL =>
    base_prompt ++ "\n\n你的职责：\n1. 友好地引导用户提供MRT内容\n2. 说明可以上传文件或直接粘贴内容\n3. 耐心等待用户提供测试用例\n\n请以友好、专业的方式与用户交流。"
  | AWAITING_MRT =>
    base_prompt ++ "\n\n你的职责：\n1. 友好地引导用户提供MRT内容\n2. 说明可以上传文件或直接粘贴内容\n3. 耐心等待用户提供测试用例\n\n请以友好、专业的方式与用户交流。"
  | AWAITING_REQUIREMENT =>
    base_prompt ++ "\n\n你的职责：\n1. 询问用户是否需要提供软件需求文档（可选）\n2. 如果用户不需要，引导进入review阶段\n3. 如果用户需要，等待用户提供需求文档\n\n请以友好、专业的方式与用户交流。"
  | REVIEWING =>
    base_prompt ++ "\n\n你的职责：\n1. 根据checklist对MRT内容进行审查\n2. 发现MRT中缺失或不符合checklist要求的内容\n3. 给出具体、可操作的建议\n4. 回答格式可以灵活，根据用户的需求调整（可以是列表、段落、表格等）\n5. 如果用户要求特定格式的回复，请按照用户要求回复\n6. 可以在对话中继续讨论和改进\n\n请以友好、专业的方式与用户交流，帮助用户改进MRT质量。"
  | COMPLETED =>
    base_prompt ++ "\n\nReview已完成。如果用户需要review新的MRT，请引导用户上传新文件或粘贴新内容。"

/-- The MRT section header of `_build_context_message`. -/
def mrt_context_header : String := "\n\n当前正在review的MRT内容：\n"

/-- The requirement section header of `_build_context_message`. -/
def requirement_context_header : String := "\n\n软件需求文档：\n"

/-- `ChatService._build_context_message`: full context only in
`REVIEWING`; `if requirement:` is a Python truthiness test. -/
def build_context_message (state : ConversationState)
    (mrt : Option MRTEntry) (requirement : Option String) : String :=
  if state ≠ REVIEWING then ""
  else
    let context_parts :=
      (match mrt with
       | none => []
       | some m => [mrt_context_header ++ m.content]) ++
      (match requirement with
       | none => []
       | some r => if r = "" then [] else [requirement_context_header ++ r])
    pyJoin "" context_parts

/-- The `f"{user_message}{context_message}" if context_message else
user_message` expression of `chat_stream`. -/
def append_context (user_message context_message : String) : String :=
  if context_message = "" then user_message else user_message ++ context_message

/-- Python `l[i:]` for a possibly negative `i`, as used by
`_trim_history` (`messages[-(max_turns - 1):]` with Python integer
arithmetic, so `max_turns = 0` yields the index `1`). -/
def pySliceFrom {α : Type} (l : List α) (i : Int) : List α :=
  if 0 ≤ i then l.drop i.toNat else l.drop (l.length - (-i).toNat)

/-- `ChatService._trim_history`. -/
def trim_history (messages : List Message) (max_turns : Nat) : List Message :=
  if messages.length ≤ max_turns then messages
  else
    match messages with
    | m0 :: _ =>
      if m0.role = "system" then
        m0 :: pySliceFrom messages (-((max_turns : Int) - 1))
      else pySliceFrom messages (-(max_turns : Int))
    | [] => pySliceFrom messages (-(max_turns : Int))

/-! ### File ingestion (`ChatService._handle_files`) -/

/-- `MAX_CONTENT_SIZE` of `_handle_files`. -/
def MAX_CONTENT_SIZE : Nat := 200000

/-- Default file name (`file_info.get("name", "未命名文件")`). -/
def default_file_name : String := "未命名文件"

/-- The `[BINARY_FILE:` marker. -/
def binary_marker : String := "[BINARY_FILE:"

/-- `file_content[len("[BINARY_FILE:"):].split(":", 1)[0]`: the
extension recorded in a binary-marker payload. -/
def pyExt (file_content : String) : String :=
  String.mk ((pyDrop file_content 13).toList.takeWhile (fun c => c ≠ ':'))

/-- The placeholder text recorded for a binary (PDF/Word) payload that
cannot be parsed as text. -/
def binary_placeholder (file_name file_ext : String) : String :=
  "[文件: " ++ file_name ++ "]\n[注意: 这是一个" ++ file_ext
    ++ "格式的文件。由于二进制文件无法直接解析，请手动复制文件内容并粘贴到对话框中，或使用文本格式(.txt)的文件。]\n"

/-- The per-file truncation marker, recording the original size. -/
def trunc_marker (file_size : Nat) : String :=
  "\n\n[注意：文件内容过长，已截断。原始大小: " ++ toString file_size ++ " 字符]"

/-- The aggregate-cap omission marker. -/
def omit_marker : String := "\n\n[注意：剩余文件因总大小限制未包含]"

/-- The `[文件: name]\n` header prefixed to each included file. -/
def file_header (file_name : String) : String := "[文件: " ++ file_name ++ "]\n"

/-- The loop body of `_handle_files`: accumulates `mrt_content_parts`
and `total_size`; `parts` ends the recursion on `break`.  The Python
`try`/`except` around the binary branch is dead code (slicing and
`split` cannot raise), so only the `try` path is modelled. -/
def handle_files_loop : List FileInfo → List String → Nat → List String
  | [], parts, _ => parts
  | f :: rest, parts, total_size =>
    let file_name := f.name.getD default_file_name
    let file_content := f.content.getD ""
    if file_content = "" then handle_files_loop rest parts total_size
    else if pyStartsWith file_content binary_marker then
      handle_files_loop rest
        (parts ++ [binary_placeholder file_name (pyExt file_content)])
        (total_size + 100)
    else
      let file_size := pyLen file_content
      let truncated :=
        if file_size > MAX_CONTENT_SIZE then
          pyTake file_content MAX_CONTENT_SIZE ++ trunc_marker file_size
        else file_content
      let file_size2 :=
        if file_size > MAX_CONTENT_SIZE then MAX_CONTENT_SIZE else file_size
      if total_size + file_size2 > MAX_CONTENT_SIZE then
        let remaining := MAX_CONTENT_SIZE - total_size
        if remaining > 0 then
          parts ++ [file_header file_name ++ pyTake truncated remaining
            ++ omit_marker]
        else parts
      else
        handle_files_loop rest (parts ++ [file_header file_name ++ truncated])
          (total_size + file_size2)

/-- `ChatService._handle_files`: returns `(combined_content,
has_new_mrt)`. -/
def handle_files (files : Option (List FileInfo)) : String × Bool :=
  match files with
  | none => ("", false)
  | some fs =>
    if fs = [] then ("", false)
    else
      let parts := handle_files_loop fs [] 0
      if parts = [] then ("", false)
      else (pyStrip (pyJoin "\n\n" parts), true)

/-! ### Error classification for streaming failures -/

/-- Error message for a reset connection. -/
def conn_reset_msg : String :=
  "连接被重置：可能是文件太大或网络不稳定。请尝试：1) 上传较小的文件 2) 检查网络连接 3) 稍后重试"

/-- Error message for a timeout. -/
def timeout_msg : String := "请求超时：处理时间过长。请尝试上传较小的文件或分批上传。"

/-- Error message for other connection failures. -/
def conn_err_msg : String := "连接错误：无法连接到AI服务。请检查网络连接或稍后重试。"

/-- The generic failure message prefix. -/
def generic_err_head : String := "处理请求时出错："

/-- The `except Exception` handler of `chat_stream`: converts
`str(exc)` into the single user-facing error chunk. -/
def classify_error (error_str : String) : String :=
  if pyContains error_str "Connection reset" ∨
      pyContains error_str "Connection reset by peer" then conn_reset_msg
  else if pyContains (pyLower error_str) "timeout" ∨
      pyContains (pyLower error_str) "timed out" then timeout_msg
  else if pyContains error_str "Connection" then conn_err_msg
  else generic_err_head ++ error_str

/-! ### The per-turn orchestrator (`ChatService.chat_stream`)

The generator is embedded as a pure function from the incoming store and
request to the final store and the ordered list of yielded chunks.  The
LLM client is the parameter `llm`: given the message list and system
prompt it returns the chunks it yields followed by an optional exception
message.  `llm_called` records whether the streaming call was entered
(the `try` block guarded by `if messages and next_state in [...]`). -/

/-- Lines 319–325 of `chat.py`: the file-content branch of new-MRT
detection.  Returns the updated store and whether this branch set
`detected_new_mrt`. -/
def mrt_file_step (σ : Store) (session_id file_content : String)
    (has_file_mrt : Bool) (mid1 : String) : Store × Bool :=
  if has_file_mrt then
    match SessionStore.get_current_mrt σ session_id with
    | none =>
      (SessionStore.add_mrtU σ session_id file_content none mid1, true)
    | some current_mrt =>
      if current_mrt.content = file_content then (σ, false)
      else
        (SessionStore.add_mrtU (SessionStore.clear_mrtU σ session_id)
          session_id file_content none mid1, true)
  else (σ, false)

/-- Lines 328–335 of `chat.py`: the `request.mrt_content` branch of
new-MRT detection, acting on the store left by `mrt_file_step`. -/
def mrt_text_step (σ : Store) (session_id : String)
    (mrt_content : Option String) (mid2 : String) : Store × Bool :=
  match mrt_content with
  | none => (σ, false)
  | some m =>
    if m = "" then (σ, false)
    else
      match SessionStore.get_current_mrt σ session_id with
      | none =>
        (SessionStore.add_mrtU σ session_id (pyStrip m) none mid2, true)
      | some current_mrt =>
        if current_mrt.content = pyStrip m then (σ, false)
        else
          (SessionStore.add_mrtU (SessionStore.clear_mrtU σ session_id)
            session_id (pyStrip m) none mid2, true)

/-- Lines 319–335 of `chat.py`: detect and record new MRT content from
files and from `request.mrt_content`, returning the updated store and
the final value of `detected_new_mrt` (`True` as soon as either branch
set it).  `mid1`/`mid2` are the uuids of the entries the two `add_mrt`
calls would create. -/
def mrt_update (σ : Store) (session_id : String) (file_content : String)
    (has_file_mrt : Bool) (mrt_content : Option String)
    (mid1 mid2 : String) : Store × Bool :=
  let step1 := mrt_file_step σ session_id file_content has_file_mrt mid1
  let step2 := mrt_text_step step1.1 session_id mrt_content mid2
  (step2.1, step1.2 || step2.2)

/-- The generation-gating states of line 385. -/
def warrants_generation (state : ConversationState) : Bool :=
  state = REVIEWING ∨ state = AWAITING_REQUIREMENT

/-- The default user message substituted when only files are present. -/
def default_files_msg : String := "请帮我review这些文件"

/-- Everything `chat_stream` computes before (possibly) invoking the
LLM; all session-state mutation happens here.  `fresh_sid1` is the uuid
`create()` would use at line 308, `fresh_sid2` the one at line 311,
`mid1`/`mid2` the entry uuids of the two `add_mrt` call sites. -/
structure TurnSetup : Type where
  store : Store
  session_id : String
  current_state : ConversationState
  next_state : ConversationState
  detected_new_mrt : Bool
  has_file_mrt : Bool
  user_message : String
  messages : List Message
  guidance : Option String
  guidance_chunks : List String
  welcome_early : Bool
  system_prompt : String

/-- Lines 308–313 of `chat.py`: resolve or create the session
(`request.session_id or self.sessions.create()` followed by the
`get`/recreate fallback).  Returns the store and the session id in
use. -/
def resolve_session (σ : Store) (request_session_id : Option String)
    (fresh_sid1 fresh_sid2 : String) : Store × String :=
  let p1 : Store × String :=
    match request_session_id with
    | none => SessionStore.create σ fresh_sid1
    | some s => if s = "" then SessionStore.create σ fresh_sid1 else (σ, s)
  match SessionStore.get p1.1 p1.2 with
  | some _ => p1
  | none => SessionStore.create p1.1 fresh_sid2

/-- Lines 337–338 of `chat.py`: `if request.software_requirement:
session["software_requirement"] = request.software_requirement.strip()`. -/
def store_after_requirement (σ : Store) (session_id : String)
    (software_requirement : Option String) : Store :=
  match software_requirement with
  | none => σ
  | some r => if r = "" then σ else setRequirementU σ session_id (pyStrip r)

/-- Line 361 of `chat.py`: the guard of the welcome-message early
return. -/
def welcome_condition (next_state : ConversationState) (user_message : String)
    (has_file_mrt : Bool) (mrt_content : Option String) : Bool :=
  next_state = INITIAL ∧ user_message = "" ∧ has_file_mrt = false ∧
    mrt_content.getD "" = ""

/-- Lines 305–382 of `chat.py`. -/
def chat_setup (σ : Store) (request : ChatRequest)
    (checklist : List ChecklistItem)
    (fresh_sid1 fresh_sid2 mid1 mid2 : String) : TurnSetup :=
  let p2 := resolve_session σ request.session_id fresh_sid1 fresh_sid2
  let σ0 := p2.1
  let session_id := p2.2
  let session := (SessionStore.get σ0 session_id).getD initialSession
  let current_state := session.state
  -- files / mrt_content handling
  let hf := handle_files request.files
  let upd := mrt_update σ0 session_id hf.1 hf.2 request.mrt_content mid1 mid2
  let σ1 := upd.1
  let detected_new_mrt := upd.2
  let σ2 := store_after_requirement σ1 session_id request.software_requirement
  -- current data
  let has_mrt := SessionStore.has_mrt σ2 session_id
  let has_req := SessionStore.has_requirement σ2 session_id
  let current_mrt := SessionStore.get_current_mrt σ2 session_id
  let requirement := (SessionStore.get σ2 session_id).bind Session.software_requirement
  -- determine and update state
  let next_state := determine_next_state current_state has_mrt has_req detected_new_mrt
  let σ3 :=
    if next_state ≠ current_state then SessionStore.set_stateU σ2 session_id next_state
    else σ2
  -- build messages
  let messages0 := request.messages.getD []
  let user_message := (request.message.getD "")
  let messages1 := trim_history messages0 10
  let context_message := build_context_message next_state current_mrt requirement
  let welcome_early :=
    welcome_condition next_state user_message hf.2 request.mrt_content
  let guidance := get_guidance_message next_state
  let guidance_chunks :=
    match guidance with
    | none => []
    | some g =>
      if (detected_new_mrt ∨ next_state ≠ current_state) ∧
          (next_state = AWAITING_MRT ∨ next_state = AWAITING_REQUIREMENT) then
        [g ++ "\n"]
      else []
  let messages2 :=
    if user_message ≠ "" then
      messages1 ++ [Message.mk "user" (append_context user_message context_message)]
    else if hf.2 then
      messages1 ++ [Message.mk "user" (append_context default_files_msg context_message)]
    else messages1
  { store := σ3, session_id := session_id, current_state := current_state,
    next_state := next_state, detected_new_mrt := detected_new_mrt,
    has_file_mrt := hf.2, user_message := user_message,
    messages := messages2, guidance := guidance,
    guidance_chunks := guidance_chunks, welcome_early := welcome_early,
    system_prompt := build_system_prompt checklist next_state requirement }

/-- The observable outcome of one `chat_stream` turn. -/
structure ChatResult : Type where
  store : Store
  session_id : String
  chunks : List String
  llm_called : Bool

/-- The fallback message of line 401. -/
def fallback_msg : String := "您好！我可以帮您review MRT内容。请上传文件或输入内容开始审查。"

/-- `ChatService.chat_stream`, lines 305–401. -/
def chat_stream (σ : Store) (request : ChatRequest)
    (checklist : List ChecklistItem)
    (llm : List Message → String → List String × Option String)
    (fresh_sid1 fresh_sid2 mid1 mid2 : String) : ChatResult :=
  let t := chat_setup σ request checklist fresh_sid1 fresh_sid2 mid1 mid2
  if t.welcome_early then
    { store := t.store, session_id := t.session_id,
      chunks := [welcome_message], llm_called := false }
  else if t.messages ≠ [] ∧ warrants_generation t.next_state then
    let out := llm t.messages t.system_prompt
    match out.2 with
    | none =>
      { store := t.store, session_id := t.session_id,
        chunks := t.guidance_chunks ++ out.1, llm_called := true }
    | some exc =>
      { store := t.store, session_id := t.session_id,
        chunks := t.guidance_chunks ++ out.1 ++ [classify_error exc],
        llm_called := true }
  else if t.messages = [] ∧ t.guidance = none then
    { store := t.store, session_id := t.session_id,
      chunks := t.guidance_chunks ++ [fallback_msg], llm_called := false }
  else
    { store := t.store, session_id := t.session_id,
      chunks := t.guidance_chunks, llm_called := false }

/-! ### Dictionary and store lemmas -/

theorem dictGet_dictSet_self {β : Type} (σ : List (String × β)) (k : String)
    (v : β) : dictGet (dictSet σ k v) k = some v := by
  induction σ with
  | nil => simp [dictSet, dictGet]
  | cons p rest ih =>
    rcases p with ⟨k1, v1⟩
    by_cases h : k1 = k
    · simp [dictSet, h, dictGet]
    · simp [dictSet, h, dictGet, ih]

theorem dictGet_dictSet_ne {β : Type} (σ : List (String × β)) (k k2 : String)
    (v : β) (h : k2 ≠ k) : dictGet (dictSet σ k v) k2 = dictGet σ k2 := by
  induction σ with
  | nil => simp [dictSet, dictGet, Ne.symm h]
  | cons p rest ih =>
    rcases p with ⟨k1, v1⟩
    by_cases h1 : k1 = k
    · subst h1
      simp [dictSet, dictGet, Ne.symm h]
    · simp [dictSet, h1, dictGet, ih]

theorem dictGet_updateSession_self (σ : Store) (sid : String)
    (f : Session → Session) :
    dictGet (updateSession σ sid f) sid = (dictGet σ sid).map f := by
  unfold updateSession
  cases h : dictGet σ sid with
  | none => simp [h]
  | some s => simp [h, dictGet_dictSet_self]

theorem updateSession_state_preserved (σ : Store) (sid : String)
    (f : Session → Session) (hf : ∀ s, (f s).state = s.state) (s : Session)
    (h : dictGet σ sid = some s) :
    ∃ s2, dictGet (updateSession σ sid f) sid = some s2 ∧
      s2.state = s.state := by
  refine ⟨f s, ?_, hf s⟩
  rw [dictGet_updateSession_self, h]
  rfl

theorem add_mrtU_state_preserved (σ : Store) (sid c : String)
    (nm : Option String) (mid : String) (s : Session)
    (h : dictGet σ sid = some s) :
    ∃ s2, dictGet (SessionStore.add_mrtU σ sid c nm mid) sid = some s2 ∧
      s2.state = s.state := by
  unfold SessionStore.add_mrtU
  refine updateSession_state_preserved σ sid _ ?_ s h
  intro s2
  rfl

theorem clear_mrtU_state_preserved (σ : Store) (sid : String) (s : Session)
    (h : dictGet σ sid = some s) :
    ∃ s2, dictGet (SessionStore.clear_mrtU σ sid) sid = some s2 ∧
      s2.state = s.state := by
  unfold SessionStore.clear_mrtU
  refine updateSession_state_preserved σ sid _ ?_ s h
  intro s2
  rfl

theorem mrt_file_step_state_preserved (σ : Store) (sid fc : String)
    (hfm : Bool) (m1 : String) (s : Session) (h : dictGet σ sid = some s) :
    ∃ s2, dictGet (mrt_file_step σ sid fc hfm m1).1 sid = some s2 ∧
      s2.state = s.state := by
  unfold mrt_file_step
  split
  · split
    · exact add_mrtU_state_preserved σ sid fc none m1 s h
    · split
      · exact ⟨s, h, rfl⟩
      · obtain ⟨s3, h3, e3⟩ := clear_mrtU_state_preserved σ sid s h
        obtain ⟨s4, h4, e4⟩ := add_mrtU_state_preserved _ sid fc none m1 s3 h3
        exact ⟨s4, h4, e4.trans e3⟩
  · exact ⟨s, h, rfl⟩

theorem mrt_text_step_state_preserved (σ : Store) (sid : String)
    (mc : Option String) (m2 : String) (s : Session)
    (h : dictGet σ sid = some s) :
    ∃ s2, dictGet (mrt_text_step σ sid mc m2).1 sid = some s2 ∧
      s2.state = s.state := by
  unfold mrt_text_step
  cases mc with
  | none => exact ⟨s, h, rfl⟩
  | some m =>
    by_cases hm : m = ""
    · simp only [hm, if_pos rfl]
      exact ⟨s, h, rfl⟩
    · simp only [if_neg hm]
      cases hc : SessionStore.get_current_mrt σ sid with
      | none => exact add_mrtU_state_preserved σ sid _ none m2 s h
      | some cur =>
        by_cases he : cur.content = pyStrip m
        · simp only [he, if_pos rfl]
          exact ⟨s, h, rfl⟩
        · simp only [if_neg he]
          obtain ⟨s3, h3, e3⟩ := clear_mrtU_state_preserved σ sid s h
          obtain ⟨s4, h4, e4⟩ := add_mrtU_state_preserved _ sid _ none m2 s3 h3
          exact ⟨s4, h4, e4.trans e3⟩

theorem mrt_update_state_preserved (σ : Store) (sid fc : String) (hfm : Bool)
    (mc : Option String) (m1 m2 : String) (s : Session)
    (h : dictGet σ sid = some s) :
    ∃ s2, dictGet (mrt_update σ sid fc hfm mc m1 m2).1 sid = some s2 ∧
      s2.state = s.state := by
  obtain ⟨s3, h3, e3⟩ := mrt_file_step_state_preserved σ sid fc hfm m1 s h
  obtain ⟨s4, h4, e4⟩ := mrt_text_step_state_preserved _ sid mc m2 s3 h3
  exact ⟨s4, h4, e4.trans e3⟩

theorem resolve_session_found (σ : Store) (sid : Option String)
    (f1 f2 : String) :
    ∃ s, dictGet (resolve_session σ sid f1 f2).1
      (resolve_session σ sid f1 f2).2 = some s := by
  unfold resolve_session
  cases sid with
  | none =>
    have h := dictGet_dictSet_self σ f1 initialSession
    simp only [SessionStore.create, SessionStore.get, h]
    exact ⟨initialSession, rfl⟩
  | some s0 =>
    by_cases hs : s0 = ""
    · subst hs
      have h := dictGet_dictSet_self σ f1 initialSession
      simp only [SessionStore.create, SessionStore.get, eq_self_iff_true,
        if_true, h]
      exact ⟨initialSession, rfl⟩
    · simp only [if_neg hs]
      cases hg : dictGet σ s0 with
      | some sess =>
        simp only [SessionStore.get, hg]
        exact ⟨sess, rfl⟩
      | none =>
        have h := dictGet_dictSet_self σ f2 initialSession
        simp only [SessionStore.get, hg, SessionStore.create, h]
        exact ⟨initialSession, rfl⟩

theorem store_after_requirement_state_preserved (σ : Store) (sid : String)
    (sr : Option String) (s : Session) (h : dictGet σ sid = some s) :
    ∃ s2, dictGet (store_after_requirement σ sid sr) sid = some s2 ∧
      s2.state = s.state := by
  unfold store_after_requirement
  cases sr with
  | none => exact ⟨s, h, rfl⟩
  | some r =>
    by_cases hr : r = ""
    · simp only [hr, if_pos rfl]
      exact ⟨s, h, rfl⟩
    · simp only [if_neg hr]
      unfold setRequirementU
      refine updateSession_state_preserved σ sid _ ?_ s h
      intro s2
      rfl

theorem set_stateU_found (σ : Store) (sid : String) (st : ConversationState)
    (s : Session) (h : dictGet σ sid = some s) :
    ∃ s2, dictGet (SessionStore.set_stateU σ sid st) sid = some s2 ∧
      s2.state = st := by
  unfold SessionStore.set_stateU
  have h2 := dictGet_updateSession_self σ sid (fun s => { s with state := st })
  rw [h] at h2
  exact ⟨_, h2, rfl⟩

/-- After `chat_setup`, the processed session is present in the
resulting store and its stored state is exactly the computed next
state. -/
theorem chat_setup_state_final (σ : Store) (request : ChatRequest)
    (cl : List ChecklistItem) (f1 f2 m1 m2 : String) :
    ∃ s, dictGet (chat_setup σ request cl f1 f2 m1 m2).store
        (chat_setup σ request cl f1 f2 m1 m2).session_id = some s ∧
      s.state = (chat_setup σ request cl f1 f2 m1 m2).next_state := by
  obtain ⟨s0, h0⟩ :=
    resolve_session_found σ request.session_id f1 f2
  obtain ⟨s1, h1, e1⟩ :=
    mrt_update_state_preserved (resolve_session σ request.session_id f1 f2).1
      (resolve_session σ request.session_id f1 f2).2
      (handle_files request.files).1 (handle_files request.files).2
      request.mrt_content m1 m2 s0 h0
  obtain ⟨s2, h2, e2⟩ :=
    store_after_requirement_state_preserved _ _
      request.software_requirement s1 h1
  show ∃ s, dictGet _ _ = some s ∧ _
  unfold chat_setup
  simp only [SessionStore.get, h0, Option.getD_some]
  split
  · obtain ⟨s3, h3, e3⟩ := set_stateU_found _ _ _ s2 h2
    exact ⟨s3, h3, e3⟩
  · rename_i hne
    refine ⟨s2, h2, ?_⟩
    rw [e2, e1]
    exact (Decidable.of_not_not hne).symm

/-- `chat_stream` returns the store and session id computed by
`chat_setup`, whatever the LLM does. -/
theorem chat_stream_store_eq (σ : Store) (request : ChatRequest)
    (cl : List ChecklistItem)
    (llm : List Message → String → List String × Option String)
    (f1 f2 m1 m2 : String) :
    (chat_stream σ request cl llm f1 f2 m1 m2).store =
      (chat_setup σ request cl f1 f2 m1 m2).store ∧
    (chat_stream σ request cl llm f1 f2 m1 m2).session_id =
      (chat_setup σ request cl f1 f2 m1 m2).session_id := by
  unfold chat_stream
  dsimp only
  split
  · exact ⟨rfl, rfl⟩
  · split
    · split <;> exact ⟨rfl, rfl⟩
    · split <;> exact ⟨rfl, rfl⟩

theorem welcome_condition_initial (ns : ConversationState) (um : String)
    (hfm : Bool) (mc : Option String)
    (h : welcome_condition ns um hfm mc = true) : ns = INITIAL := by
  unfold welcome_condition at h
  exact (of_decide_eq_true h).1

/-! ### Claim C1 -/

/-- The transition table of spec §4.1, written from the spec's words:
the new-MRT rule first (except from `INITIAL`), then the per-state
rows. -/
def spec_transition_table (state : ConversationState)
    (hasMrt hasRequirement detectedNewMrt : Bool) : ConversationState :=
  if detectedNewMrt = true ∧ state ≠ INITIAL then
    if hasRequirement = false then AWAITING_REQUIREMENT else REVIEWING
  else
    match state with
    | INITIAL => if hasMrt = false then AWAITING_MRT else REVIEWING
    | AWAITING_MRT =>
      if hasMrt = true then AWAITING_REQUIREMENT else AWAITING_MRT
    | AWAITING_REQUIREMENT =>
      if hasMrt = true then REVIEWING else AWAITING_MRT
    | REVIEWING => REVIEWING
    | COMPLETED => if hasMrt = true then REVIEWING else AWAITING_MRT

/-- C1: `ChatService._determine_next_state` is a pure function of
`(current state, hasMrt, hasRequirement, detectedNewMrt)` and realizes
exactly the transition table of spec §4.1: the new-MRT rule
short-circuits all others except from `INITIAL`; `INITIAL` goes to
`AWAITING_MRT`/`REVIEWING` by `hasMrt`; `AWAITING_MRT` to
`AWAITING_REQUIREMENT`/`AWAITING_MRT`; `AWAITING_REQUIREMENT` to
`REVIEWING`/`AWAITING_MRT`; `REVIEWING` stays; `COMPLETED` to
`REVIEWING`/`AWAITING_MRT`. -/
theorem claim_C1 :
    ∀ (state : ConversationState) (hasMrt hasRequirement detectedNewMrt : Bool),
      determine_next_state state hasMrt hasRequirement detectedNewMrt =
        spec_transition_table state hasMrt hasRequirement detectedNewMrt := by
  decide

/-! ### Claim C10 -/

/-- C10: reachable-state invariant.  `_determine_next_state` never
returns `INITIAL` or `COMPLETED` (for any input at all); consequently
after every completed `chat_stream` turn the processed session is
stored with a state among `AWAITING_MRT`, `AWAITING_REQUIREMENT`,
`REVIEWING`, and the welcome-message branch guarded by
`next_state == INITIAL` is unreachable. -/
theorem claim_C10 :
    (∀ (state : ConversationState) (m r d : Bool),
      determine_next_state state m r d = AWAITING_MRT ∨
      determine_next_state state m r d = AWAITING_REQUIREMENT ∨
      determine_next_state state m r d = REVIEWING) ∧
    (∀ (σ : Store) (request : ChatRequest) (cl : List ChecklistItem)
      (llm : List Message → String → List String × Option String)
      (f1 f2 m1 m2 : String),
      ∃ s : Session,
        dictGet (chat_stream σ request cl llm f1 f2 m1 m2).store
          (chat_stream σ request cl llm f1 f2 m1 m2).session_id = some s ∧
        (s.state = AWAITING_MRT ∨ s.state = AWAITING_REQUIREMENT ∨
          s.state = REVIEWING)) ∧
    (∀ (σ : Store) (request : ChatRequest) (cl : List ChecklistItem)
      (f1 f2 m1 m2 : String),
      (chat_setup σ request cl f1 f2 m1 m2).welcome_early = false) := by
  have hrange : ∀ (state : ConversationState) (m r d : Bool),
      determine_next_state state m r d = AWAITING_MRT ∨
      determine_next_state state m r d = AWAITING_REQUIREMENT ∨
      determine_next_state state m r d = REVIEWING := by decide
  have hns : ∀ (σ : Store) (request : ChatRequest) (cl : List ChecklistItem)
      (f1 f2 m1 m2 : String),
      ∃ cs hm hr dn, (chat_setup σ request cl f1 f2 m1 m2).next_state =
        determine_next_state cs hm hr dn := by
    intro σ request cl f1 f2 m1 m2
    exact ⟨_, _, _, _, rfl⟩
  refine ⟨hrange, ?_, ?_⟩
  · intro σ request cl llm f1 f2 m1 m2
    obtain ⟨hst, hsid⟩ := chat_stream_store_eq σ request cl llm f1 f2 m1 m2
    rw [hst, hsid]
    obtain ⟨s, hs, he⟩ := chat_setup_state_final σ request cl f1 f2 m1 m2
    refine ⟨s, hs, ?_⟩
    obtain ⟨cs, hm, hr, dn, hd⟩ := hns σ request cl f1 f2 m1 m2
    rw [he, hd]
    exact hrange cs hm hr dn
  · intro σ request cl f1 f2 m1 m2
    have hform : (chat_setup σ request cl f1 f2 m1 m2).welcome_early =
        welcome_condition (chat_setup σ request cl f1 f2 m1 m2).next_state
          (chat_setup σ request cl f1 f2 m1 m2).user_message
          (chat_setup σ request cl f1 f2 m1 m2).has_file_mrt
          request.mrt_content := rfl
    rw [hform]
    cases hw : welcome_condition (chat_setup σ request cl f1 f2 m1 m2).next_state
        (chat_setup σ request cl f1 f2 m1 m2).user_message
        (chat_setup σ request cl f1 f2 m1 m2).has_file_mrt
        request.mrt_content with
    | false => rfl
    | true =>
      exfalso
      have hI := welcome_condition_initial _ _ _ _ hw
      obtain ⟨cs, hm, hr, dn, hd⟩ := hns σ request cl f1 f2 m1 m2
      rw [hd] at hI
      rcases hrange cs hm hr dn with h | h | h <;> rw [h] at hI <;> exact
        ConversationState.noConfusion hI

/-! ### Claim C3 -/

theorem pySliceFrom_negNat {α : Type} (l : List α) (k : Nat) (hk : 1 ≤ k) :
    pySliceFrom l (-(k : Int)) = l.drop (l.length - k) := by
  unfold pySliceFrom
  rw [if_neg (by omega)]
  congr 1
  omega

/-- C3 counterexample: with `max_turns = 1` and a leading system message
(`messages[-(max_turns - 1):]` is `messages[-0:]`, the whole list),
`_trim_history` returns a 4-element list, so the claimed bound
`length ≤ N` fails for `N = 1`. -/
theorem claim_C3_counterexample :
    ¬ ((trim_history [Message.mk "system" "sp", Message.mk "user" "a",
        Message.mk "user" "b"] 1).length ≤ 1) := by
  decide

/-- C3 (amended: for every `max_turns ≥ 2`): `_trim_history` returns
the list unchanged when its length is at most `N`; otherwise, with a
leading system message it returns that message followed by the last
`N - 1` messages, and without one the last `N` messages; the result has
length at most `N` and is a contiguous suffix of the input, optionally
preceded by the input's leading system message, with no message
reordered or altered. -/
theorem claim_C3 (messages : List Message) (N : Nat) (hN : 2 ≤ N) :
    (messages.length ≤ N → trim_history messages N = messages) ∧
    (messages.length > N →
      ∃ m0 t, messages = m0 :: t ∧
        ((m0.role = "system" ∧
            trim_history messages N =
              m0 :: messages.drop (messages.length - (N - 1))) ∨
         (m0.role ≠ "system" ∧
            trim_history messages N = messages.drop (messages.length - N)))) ∧
    (trim_history messages N).length ≤ N ∧
    (trim_history messages N <:+ messages ∨
      ∃ m0 t s, messages = m0 :: t ∧ m0.role = "system" ∧
        trim_history messages N = m0 :: s ∧ s <:+ messages) := by
  by_cases hlen : messages.length ≤ N
  · have he : trim_history messages N = messages := by
      unfold trim_history
      rw [if_pos hlen]
    refine ⟨fun _ => he, fun hgt => absurd hlen (by omega), ?_, ?_⟩
    · rw [he]
      exact hlen
    · left
      rw [he]
  · have hgt : messages.length > N := by omega
    cases messages with
    | nil => simp at hgt
    | cons m0 t =>
      by_cases hrole : m0.role = "system"
      · have he : trim_history (m0 :: t) N =
            m0 :: (m0 :: t).drop ((m0 :: t).length - (N - 1)) := by
          unfold trim_history
          rw [if_neg hlen]
          dsimp only
          rw [if_pos hrole]
          have hc : -((N : Int) - 1) = -(((N - 1 : Nat) : Int)) := by omega
          rw [hc, pySliceFrom_negNat _ (N - 1) (by omega)]
        refine ⟨fun hle => absurd hle hlen, ?_, ?_, ?_⟩
        · exact fun _ => ⟨m0, t, rfl, Or.inl ⟨hrole, he⟩⟩
        · rw [he]
          simp only [List.length_cons, List.length_drop]
          omega
        · right
          exact ⟨m0, t, _, rfl, hrole, he, List.drop_suffix _ _⟩
      · have he : trim_history (m0 :: t) N =
            (m0 :: t).drop ((m0 :: t).length - N) := by
          unfold trim_history
          rw [if_neg hlen]
          dsimp only
          rw [if_neg hrole]
          exact pySliceFrom_negNat _ N (by omega)
        refine ⟨fun hle => absurd hle hlen, ?_, ?_, ?_⟩
        · exact fun _ => ⟨m0, t, rfl, Or.inr ⟨hrole, he⟩⟩
        · rw [he]
          simp only [List.length_drop]
          omega
        · left
          rw [he]
          exact List.drop_suffix _ _

/-- C3 amended-claim witness at a concrete input. -/
theorem claim_C3_witness :
    (2 : Nat) ≤ 2 ∧
    (trim_history [Message.mk "system" "sp", Message.mk "user" "a",
      Message.mk "user" "b"] 2).length ≤ 2 :=
  ⟨by decide,
    (claim_C3 [Message.mk "system" "sp", Message.mk "user" "a",
      Message.mk "user" "b"] 2 (by decide)).2.2.1⟩

/-! ### Claim C4 -/

theorem strAppendAssoc (a b c : String) : a ++ b ++ c = a ++ (b ++ c) := by
  rcases a with ⟨A⟩
  rcases b with ⟨B⟩
  rcases c with ⟨C⟩
  show String.mk (A ++ B ++ C) = String.mk (A ++ (B ++ C))
  rw [List.append_assoc]

theorem strAppendEmpty (a : String) : a ++ "" = a := by
  rcases a with ⟨A⟩
  show String.mk (A ++ []) = String.mk A
  rw [List.append_nil]

theorem strEmptyAppend (a : String) : "" ++ a = a := by
  rcases a with ⟨A⟩
  show String.mk ([] ++ A) = String.mk A
  rw [List.nil_append]

/-- C4: `_build_context_message` returns the empty string in every
state other than `REVIEWING`; in `REVIEWING` with an MRT entry the
result contains the full MRT content as a labeled section, followed,
when a (truthy) requirement is present, by the labeled requirement
text; and `chat_stream` appends the non-empty context after the user's
own message text. -/
theorem claim_C4 :
    (∀ (state : ConversationState) (mrt : Option MRTEntry)
      (req : Option String), state ≠ REVIEWING →
        build_context_message state mrt req = "") ∧
    (∀ (e : MRTEntry) (req : Option String),
      ∃ a b, build_context_message REVIEWING (some e) req =
          a ++ e.content ++ b ∧
        ∀ r, req = some r → r ≠ "" → ∃ c d, b = c ++ r ++ d) ∧
    (∀ (u ctx : String), ctx ≠ "" → append_context u ctx = u ++ ctx) := by
  refine ⟨?_, ?_, ?_⟩
  · intro state mrt req h
    unfold build_context_message
    rw [if_pos h]
  · intro e req
    have hrw : build_context_message REVIEWING (some e) req =
        pyJoin "" ([mrt_context_header ++ e.content] ++
          (match req with
           | none => []
           | some r => if r = "" then []
              else [requirement_context_header ++ r])) := by
      unfold build_context_message
      rw [if_neg (fun h => h rfl)]
    cases req with
    | none =>
      refine ⟨mrt_context_header, "", ?_, ?_⟩
      · rw [hrw]
        show mrt_context_header ++ e.content =
          mrt_context_header ++ e.content ++ ""
        rw [strAppendEmpty]
      · intro r hr
        exact absurd hr (by simp)
    | some r =>
      by_cases hr : r = ""
      · subst hr
        refine ⟨mrt_context_header, "", ?_, ?_⟩
        · rw [hrw]
          simp only [if_pos rfl, List.append_nil]
          show mrt_context_header ++ e.content =
            mrt_context_header ++ e.content ++ ""
          rw [strAppendEmpty]
        · intro r2 hr2 hne
          rw [Option.some_inj] at hr2
          exact absurd hr2.symm hne
      · refine ⟨mrt_context_header, "" ++ (requirement_context_header ++ r),
          ?_, ?_⟩
        · rw [hrw]
          simp only [if_neg hr]
          show mrt_context_header ++ e.content ++ "" ++
              (requirement_context_header ++ r) =
            mrt_context_header ++ e.content ++
              ("" ++ (requirement_context_header ++ r))
          rw [strAppendAssoc]
        · intro r2 hr2 _
          rw [Option.some_inj] at hr2
          subst hr2
          refine ⟨"" ++ requirement_context_header, "", ?_⟩
          rw [strAppendEmpty, strAppendAssoc]
  · intro u ctx h
    unfold append_context
    rw [if_neg h]

/-- C4 witness at concrete inputs. -/
theorem claim_C4_witness :
    build_context_message AWAITING_MRT
      (some { id := "i", name := "n", content := "c" }) (some "r") = "" :=
  claim_C4.1 AWAITING_MRT
    (some { id := "i", name := "n", content := "c" }) (some "r") (by decide)

/-! ### Claim C5 -/

/-- C5: on an unknown session id the mutation operations `add_mrt`,
`clear_mrt`, `set_state` raise the session-not-found error, while the
reads `get`, `get_current_mrt`, `has_mrt`, `has_requirement`,
`can_start_review` never raise and degrade to `none`/`false`; on a
known session `has_mrt` holds exactly when the current MRT entry exists
with non-blank content, `has_requirement` exactly when a non-blank
requirement is stored, and `can_start_review` coincides with
`has_mrt`. -/
theorem claim_C5 :
    (∀ (σ : Store) (sid : String), dictGet σ sid = none →
      (∀ (c : String) (nm : Option String) (mid : String),
        SessionStore.add_mrt σ sid c nm mid =
          Except.error "Session not found") ∧
      SessionStore.clear_mrt σ sid = Except.error "Session not found" ∧
      (∀ st, SessionStore.set_state σ sid st =
        Except.error "Session not found") ∧
      SessionStore.get σ sid = none ∧
      SessionStore.get_current_mrt σ sid = none ∧
      SessionStore.has_mrt σ sid = false ∧
      SessionStore.has_requirement σ sid = false ∧
      SessionStore.can_start_review σ sid = false) ∧
    (∀ (σ : Store) (sid : String) (s : Session), dictGet σ sid = some s →
      (SessionStore.has_mrt σ sid = true ↔
        ∃ e, SessionStore.get_current_mrt σ sid = some e ∧
          pyStrip e.content ≠ "") ∧
      (SessionStore.has_requirement σ sid = true ↔
        ∃ r, s.software_requirement = some r ∧ pyStrip r ≠ "") ∧
      SessionStore.can_start_review σ sid = SessionStore.has_mrt σ sid) := by
  constructor
  · intro σ sid h
    have hmrt : SessionStore.get_current_mrt σ sid = none := by
      unfold SessionStore.get_current_mrt
      rw [h]
    refine ⟨?_, ?_, ?_, ?_, hmrt, ?_, ?_, ?_⟩
    · intro c nm mid
      unfold SessionStore.add_mrt
      rw [h]
      rfl
    · unfold SessionStore.clear_mrt
      rw [h]
      rfl
    · intro st
      unfold SessionStore.set_state
      rw [h]
      rfl
    · exact h
    · unfold SessionStore.has_mrt
      rw [hmrt]
    · unfold SessionStore.has_requirement
      rw [h]
    · unfold SessionStore.can_start_review SessionStore.has_mrt
      rw [hmrt]
  · intro σ sid s h
    refine ⟨?_, ?_, rfl⟩
    · unfold SessionStore.has_mrt
      cases hc : SessionStore.get_current_mrt σ sid with
      | none => simp
      | some e => simp [decide_eq_true_iff]
    · unfold SessionStore.has_requirement
      rw [h]
      cases hr : s.software_requirement with
      | none => simp [hr]
      | some r => simp [hr, decide_eq_true_iff]

/-- A one-session store used by the C5 witness. -/
def c5_demo_store : Store :=
  [("s", Session.mk INITIAL [] none (some "need"))]

/-- C5 witness: the empty store raises on mutation and degrades on
reads; a store holding a session with a requirement satisfies the
predicate characterization. -/
theorem claim_C5_witness :
    SessionStore.clear_mrt [] "x" = Except.error "Session not found" ∧
    SessionStore.has_mrt [] "x" = false ∧
    (SessionStore.has_requirement c5_demo_store "s" = true ↔
      ∃ r, (some "need" : Option String) = some r ∧ pyStrip r ≠ "") :=
  ⟨(claim_C5.1 [] "x" rfl).2.1,
   (claim_C5.1 [] "x" rfl).2.2.2.2.2.1,
   (claim_C5.2 c5_demo_store "s" (Session.mk INITIAL [] none (some "need"))
      rfl).2.1⟩

/-! ### Claim C2 -/

theorem mrt_file_step_skip (σ : Store) (sid fc : String) (hfm : Bool)
    (m1 : String)
    (h : hfm = true →
      (SessionStore.get_current_mrt σ sid).map MRTEntry.content = some fc) :
    mrt_file_step σ sid fc hfm m1 = (σ, false) := by
  unfold mrt_file_step
  cases hfm with
  | false => simp
  | true =>
    have h2 := h rfl
    cases hc : SessionStore.get_current_mrt σ sid with
    | none =>
      rw [hc] at h2
      simp at h2
    | some e =>
      rw [hc] at h2
      simp at h2
      simp [h2]

theorem mrt_text_step_skip (σ : Store) (sid : String) (mc : Option String)
    (m2 : String)
    (h : ∀ m, mc = some m → m ≠ "" →
      (SessionStore.get_current_mrt σ sid).map MRTEntry.content =
        some (pyStrip m)) :
    mrt_text_step σ sid mc m2 = (σ, false) := by
  unfold mrt_text_step
  cases mc with
  | none => rfl
  | some m =>
    by_cases hm : m = ""
    · simp [hm]
    · have h2 := h m rfl hm
      cases hc : SessionStore.get_current_mrt σ sid with
      | none =>
        rw [hc] at h2
        simp at h2
      | some e =>
        rw [hc] at h2
        simp at h2
        simp [hm, h2]

theorem mrt_file_step_detect (σ : Store) (sid fc : String) (hfm : Bool)
    (m1 : String) (h : (mrt_file_step σ sid fc hfm m1).2 = true) :
    hfm = true ∧
      (SessionStore.get_current_mrt σ sid).map MRTEntry.content ≠ some fc := by
  unfold mrt_file_step at h
  cases hfm with
  | false => simp at h
  | true =>
    refine ⟨rfl, ?_⟩
    cases hc : SessionStore.get_current_mrt σ sid with
    | none => simp
    | some e =>
      rw [hc] at h
      by_cases he : e.content = fc
      · simp [he] at h
      · simp [he]

theorem mrt_text_step_detect (σ : Store) (sid : String) (mc : Option String)
    (m2 : String) (h : (mrt_text_step σ sid mc m2).2 = true) :
    ∃ m, mc = some m ∧ m ≠ "" ∧
      (SessionStore.get_current_mrt σ sid).map MRTEntry.content ≠
        some (pyStrip m) := by
  unfold mrt_text_step at h
  cases mc with
  | none => simp at h
  | some m =>
    by_cases hm : m = ""
    · simp [hm] at h
    · refine ⟨m, rfl, hm, ?_⟩
      simp only [if_neg hm] at h
      cases hc : SessionStore.get_current_mrt σ sid with
      | none => simp
      | some e =>
        rw [hc] at h
        by_cases he : e.content = pyStrip m
        · simp [he] at h
        · simp [he]

/-- C2: resubmitting the session's current MRT content is idempotent.
If every supplied MRT source (ingested file content; direct
`mrt_content` after stripping) equals the current entry's content, the
MRT-handling step of `chat_stream` leaves the store untouched and does
not set `detected_new_mrt`; conversely `detected_new_mrt` is set only
when some supplied content differs from the current entry's content at
the time of its check, or no current entry exists then. -/
theorem claim_C2 (σ : Store) (sid fc : String) (hfm : Bool)
    (mc : Option String) (m1 m2 : String) :
    (∀ e, SessionStore.get_current_mrt σ sid = some e →
      (hfm = true → fc = e.content) →
      (∀ m, mc = some m → m ≠ "" → pyStrip m = e.content) →
      mrt_update σ sid fc hfm mc m1 m2 = (σ, false)) ∧
    ((mrt_update σ sid fc hfm mc m1 m2).2 = true →
      (hfm = true ∧
        (SessionStore.get_current_mrt σ sid).map MRTEntry.content ≠
          some fc) ∨
      (∃ m, mc = some m ∧ m ≠ "" ∧
        (SessionStore.get_current_mrt (mrt_file_step σ sid fc hfm m1).1
            sid).map MRTEntry.content ≠ some (pyStrip m))) := by
  constructor
  · intro e he hf hm
    have h1 : mrt_file_step σ sid fc hfm m1 = (σ, false) := by
      refine mrt_file_step_skip σ sid fc hfm m1 ?_
      intro hfm1
      rw [he, (hf hfm1)]
      rfl
    have h2 : mrt_text_step σ sid mc m2 = (σ, false) := by
      refine mrt_text_step_skip σ sid mc m2 ?_
      intro m hmc hmne
      rw [he, (hm m hmc hmne)]
      rfl
    unfold mrt_update
    rw [h1]
    dsimp only
    rw [h2]
    rfl
  · intro hdet
    unfold mrt_update at hdet
    dsimp only at hdet
    rcases Bool.or_eq_true_iff.mp hdet with h | h
    · exact Or.inl (mrt_file_step_detect σ sid fc hfm m1 h)
    · exact Or.inr (mrt_text_step_detect _ sid mc m2 h)

/-- C2 witness: resubmitting the stored content (as both file content
and stripped direct text) changes nothing and detects nothing. -/
theorem claim_C2_witness :
    mrt_update
      [("s", Session.mk REVIEWING [("e1", MRTEntry.mk "e1" "MRT-e1" "caseA")]
        (some "e1") none)] "s" "caseA" true (some " caseA ") "x1" "x2" =
    ([("s", Session.mk REVIEWING [("e1", MRTEntry.mk "e1" "MRT-e1" "caseA")]
        (some "e1") none)], false) :=
  (claim_C2 [("s", Session.mk REVIEWING
      [("e1", MRTEntry.mk "e1" "MRT-e1" "caseA")] (some "e1") none)]
    "s" "caseA" true (some " caseA ") "x1" "x2").1
    (MRTEntry.mk "e1" "MRT-e1" "caseA") rfl (fun _ => rfl)
    (fun m hm _ => by
      rw [Option.some_inj] at hm
      subst hm
      decide)

/-! ### Claim C6 -/

/-- C6: generation failures never escape `chat_stream`.  For any
exception text `e` raised by the generator after yielding `cs`, the
turn yields exactly the chunks of the non-failing run plus one final
error chunk `classify_error e`; the stores of the failing and
non-failing runs are identical (the session mutations of the turn are
unaffected); and the error chunk distinguishes connection-reset,
timeout, other connection failure, and generic failure by inspecting
the error string. -/
theorem claim_C6 (σ : Store) (request : ChatRequest)
    (cl : List ChecklistItem) (f1 f2 m1 m2 : String) (cs : List String)
    (e : String) :
    (chat_stream σ request cl (fun _ _ => (cs, some e)) f1 f2 m1 m2).store =
      (chat_stream σ request cl (fun _ _ => (cs, none)) f1 f2 m1 m2).store ∧
    ((chat_stream σ request cl (fun _ _ => (cs, some e)) f1 f2 m1 m2).llm_called
        = true →
      (chat_stream σ request cl (fun _ _ => (cs, some e)) f1 f2 m1 m2).chunks =
        (chat_stream σ request cl (fun _ _ => (cs, none)) f1 f2 m1 m2).chunks
          ++ [classify_error e]) ∧
    ((chat_stream σ request cl (fun _ _ => (cs, some e)) f1 f2 m1 m2).llm_called
        = false →
      (chat_stream σ request cl (fun _ _ => (cs, some e)) f1 f2 m1 m2).chunks =
        (chat_stream σ request cl (fun _ _ => (cs, none)) f1 f2 m1 m2).chunks) ∧
    (classify_error e = conn_reset_msg ∨ classify_error e = timeout_msg ∨
      classify_error e = conn_err_msg ∨
      classify_error e = generic_err_head ++ e) ∧
    ((pyContains e "Connection reset" ∨
        pyContains e "Connection reset by peer") →
      classify_error e = conn_reset_msg) ∧
    (¬(pyContains e "Connection reset" ∨
        pyContains e "Connection reset by peer") →
      (pyContains (pyLower e) "timeout" ∨ pyContains (pyLower e) "timed out") →
      classify_error e = timeout_msg) ∧
    (¬(pyContains e "Connection reset" ∨
        pyContains e "Connection reset by peer") →
      ¬(pyContains (pyLower e) "timeout" ∨
        pyContains (pyLower e) "timed out") →
      pyContains e "Connection" → classify_error e = conn_err_msg) ∧
    (¬(pyContains e "Connection reset" ∨
        pyContains e "Connection reset by peer") →
      ¬(pyContains (pyLower e) "timeout" ∨
        pyContains (pyLower e) "timed out") →
      ¬pyContains e "Connection" = true →
      classify_error e = generic_err_head ++ e) := by
  refine ⟨?_, ?_, ?_, ?_, ?_, ?_, ?_, ?_⟩
  · exact ((chat_stream_store_eq σ request cl _ f1 f2 m1 m2).1).trans
      ((chat_stream_store_eq σ request cl _ f1 f2 m1 m2).1).symm
  · unfold chat_stream
    dsimp only
    split
    · intro h
      exact absurd h (by simp)
    · split
      · intro _
        rfl
      · split
        · intro h
          exact absurd h (by simp)
        · intro h
          exact absurd h (by simp)
  · unfold chat_stream
    dsimp only
    split
    · intro _
      rfl
    · split
      · intro h
        exact absurd h (by simp)
      · split
        · intro _
          rfl
        · intro _
          rfl
  · unfold classify_error
    split
    · exact Or.inl rfl
    · split
      · exact Or.inr (Or.inl rfl)
      · split
        · exact Or.inr (Or.inr (Or.inl rfl))
        · exact Or.inr (Or.inr (Or.inr rfl))
  · intro h
    unfold classify_error
    rw [if_pos h]
  · intro h1 h2
    unfold classify_error
    rw [if_neg h1, if_pos h2]
  · intro h1 h2 h3
    unfold classify_error
    rw [if_neg h1, if_neg h2, if_pos h3]
  · intro h1 h2 h3
    unfold classify_error
    rw [if_neg h1, if_neg h2, if_neg h3]

/-- C6 witness at a concrete failing run. -/
theorem claim_C6_witness :
    (chat_stream [] (ChatRequest.mk none none none none none none) []
        (fun _ _ => (["a"], some "boom")) "f1" "f2" "m1" "m2").store =
      (chat_stream [] (ChatRequest.mk none none none none none none) []
        (fun _ _ => (["a"], none)) "f1" "f2" "m1" "m2").store ∧
    classify_error "boom" = generic_err_head ++ "boom" :=
  ⟨(claim_C6 [] (ChatRequest.mk none none none none none none) []
      "f1" "f2" "m1" "m2" ["a"] "boom").1,
   (claim_C6 [] (ChatRequest.mk none none none none none none) []
      "f1" "f2" "m1" "m2" ["a"] "boom").2.2.2.2.2.2.2
      (by decide) (by decide) (by decide)⟩

/-! ### Claim C7 -/

/-- A session awaiting MRT used by the C7 counterexample. -/
def c7_demo_store : Store := [("s", Session.mk AWAITING_MRT [] none none)]

/-- A turn carrying only a free-text message on that session. -/
def c7_demo_request : ChatRequest :=
  ChatRequest.mk (some "s") (some "hello") none none none none

/-- C7 counterexample: a turn in an unchanged non-generating state with
a non-empty message list yields no chunks at all (the guidance guard
`detected_new_mrt or next_state != current_state` is false, the LLM
gate is false, and the fallback needs an empty message list), refuting
"every turn yields at least one chunk". -/
theorem claim_C7_counterexample :
    (chat_stream c7_demo_store c7_demo_request []
      (fun _ _ => (["X"], none)) "f1" "f2" "m1" "m2").chunks = [] ∧
    (chat_stream c7_demo_store c7_demo_request []
      (fun _ _ => (["X"], none)) "f1" "f2" "m1" "m2").llm_called = false := by
  constructor
  · rfl
  · rfl

/-- C7 (amended): `chat_stream` invokes the text generator iff the
computed next state is `REVIEWING` or `AWAITING_REQUIREMENT` and the
assembled message list is non-empty.  When the generator is not
invoked, the turn yields the welcome message in the welcome case, and
otherwise its guidance chunks plus the static fallback message exactly
when the message list is empty and no guidance exists — so a turn in an
unchanged non-generating state with a non-empty message list may yield
no chunks. -/
theorem claim_C7 (σ : Store) (request : ChatRequest)
    (cl : List ChecklistItem)
    (llm : List Message → String → List String × Option String)
    (f1 f2 m1 m2 : String) :
    ((chat_stream σ request cl llm f1 f2 m1 m2).llm_called = true ↔
      ((chat_setup σ request cl f1 f2 m1 m2).messages ≠ [] ∧
        warrants_generation (chat_setup σ request cl f1 f2 m1 m2).next_state
          = true)) ∧
    ((chat_stream σ request cl llm f1 f2 m1 m2).llm_called = false →
      (chat_stream σ request cl llm f1 f2 m1 m2).chunks =
        (if (chat_setup σ request cl f1 f2 m1 m2).welcome_early then
          [welcome_message]
         else
          (chat_setup σ request cl f1 f2 m1 m2).guidance_chunks ++
            (if (chat_setup σ request cl f1 f2 m1 m2).messages = [] ∧
                (chat_setup σ request cl f1 f2 m1 m2).guidance = none then
              [fallback_msg]
             else []))) := by
  unfold chat_stream
  dsimp only
  split
  · rename_i hw
    constructor
    · constructor
      · intro h
        exact absurd h (by simp)
      · intro hc
        exfalso
        have hI : (chat_setup σ request cl f1 f2 m1 m2).next_state =
            INITIAL := welcome_condition_initial _ _ _ _ hw
        rw [hI] at hc
        exact absurd hc.2 (by decide)
    · intro _
      rfl
  · rename_i hnw
    split
    · rename_i hc
      constructor
      · split
        · exact iff_of_true rfl hc
        · exact iff_of_true rfl hc
      · split
        · intro h
          exact absurd h (by simp)
        · intro h
          exact absurd h (by simp)
    · rename_i hnc
      split
      · rename_i hfb
        constructor
        · exact iff_of_false (by simp) hnc
        · intro _
          rfl
      · rename_i hnfb
        constructor
        · exact iff_of_false (by simp) hnc
        · intro _
          exact (List.append_nil _).symm

/-- C7 amended-claim witness at a concrete input. -/
theorem claim_C7_witness :
    (chat_stream c7_demo_store c7_demo_request []
        (fun _ _ => (["Y"], none)) "g1" "g2" "n1" "n2").llm_called = false ∧
    (chat_stream c7_demo_store c7_demo_request []
        (fun _ _ => (["Y"], none)) "g1" "g2" "n1" "n2").chunks =
      (if (chat_setup c7_demo_store c7_demo_request []
          "g1" "g2" "n1" "n2").welcome_early then [welcome_message]
       else
        (chat_setup c7_demo_store c7_demo_request []
          "g1" "g2" "n1" "n2").guidance_chunks ++
          (if (chat_setup c7_demo_store c7_demo_request []
              "g1" "g2" "n1" "n2").messages = [] ∧
              (chat_setup c7_demo_store c7_demo_request []
                "g1" "g2" "n1" "n2").guidance = none then
            [fallback_msg]
           else [])) :=
  ⟨rfl, (claim_C7 c7_demo_store c7_demo_request []
      (fun _ _ => (["Y"], none)) "g1" "g2" "n1" "n2").2 rfl⟩

/-! ### String length and membership lemmas for file ingestion -/

theorem pyLen_mk (l : List Char) : pyLen (String.mk l) = l.length := rfl

theorem strToList_append (a b : String) :
    (a ++ b).toList = a.toList ++ b.toList := by
  rcases a with ⟨A⟩
  rcases b with ⟨B⟩
  rfl

theorem strLen_append (a b : String) : pyLen (a ++ b) = pyLen a + pyLen b := by
  unfold pyLen
  rw [strToList_append, List.length_append]

theorem pyTake_le (s : String) (n : Nat) : pyLen (pyTake s n) ≤ n := by
  unfold pyTake
  rw [pyLen_mk, List.length_take]
  omega

theorem stripList_length_le (l : List Char) :
    (stripList l).length ≤ l.length := by
  unfold stripList
  calc (((l.dropWhile Char.isWhitespace).reverse.dropWhile
        Char.isWhitespace).reverse).length
      = ((l.dropWhile Char.isWhitespace).reverse.dropWhile
          Char.isWhitespace).length := List.length_reverse _
    _ ≤ (l.dropWhile Char.isWhitespace).reverse.length :=
        (List.dropWhile_sublist _).length_le
    _ = (l.dropWhile Char.isWhitespace).length :=
        List.length_reverse _
    _ ≤ l.length := (List.dropWhile_sublist _).length_le

theorem pyStrip_le (s : String) : pyLen (pyStrip s) ≤ pyLen s := by
  unfold pyStrip
  rw [pyLen_mk]
  exact stripList_length_le s.toList

theorem mem_stripList (c : Char) (l : List Char) (h : c ∈ stripList l) :
    c ∈ l := by
  unfold stripList at h
  rw [List.mem_reverse] at h
  have h2 := (List.dropWhile_sublist Char.isWhitespace).subset h
  rw [List.mem_reverse] at h2
  exact (List.dropWhile_sublist Char.isWhitespace).subset h2

theorem mem_pyJoin (c : Char) (sep : String) (ps : List String)
    (h : c ∈ (pyJoin sep ps).toList) :
    (∃ p ∈ ps, c ∈ p.toList) ∨ c ∈ sep.toList := by
  induction ps with
  | nil =>
    simp [pyJoin] at h
  | cons x t ih =>
    cases t with
    | nil =>
      left
      exact ⟨x, List.mem_cons_self x [], h⟩
    | cons y t2 =>
      rw [show pyJoin sep (x :: y :: t2) = x ++ sep ++ pyJoin sep (y :: t2)
          from rfl, strToList_append, strToList_append] at h
      rw [List.mem_append, List.mem_append] at h
      rcases h with (h | h) | h
      · exact Or.inl ⟨x, List.mem_cons_self x _, h⟩
      · exact Or.inr h
      · rcases ih h with ⟨p, hp, hc⟩ | h2
        · exact Or.inl ⟨p, List.mem_cons_of_mem x hp, hc⟩
        · exact Or.inr h2

theorem mem_pyStrip (c : Char) (s : String) (h : c ∈ (pyStrip s).toList) :
    c ∈ s.toList := mem_stripList c s.toList h

theorem pyContains_false_of_not_mem (s p : String) (c : Char)
    (hc : c ∈ p.toList) (hs : c ∉ s.toList) : pyContains s p = false := by
  unfold pyContains
  rw [decide_eq_false_iff_not]
  intro hinf
  exact hs (hinf.sublist.subset hc)

/-- Cost of a part list: total length plus one separator allowance per
part. -/
def partsCost (ps : List String) : Nat :=
  (ps.map (fun p => pyLen p + 2)).sum

theorem partsCost_append_one (ps : List String) (p : String) :
    partsCost (ps ++ [p]) = partsCost ps + (pyLen p + 2) := by
  unfold partsCost
  rw [List.map_append, List.sum_append]
  rfl

theorem pyJoin_le_partsCost (ps : List String) :
    pyLen (pyJoin "\n\n" ps) ≤ partsCost ps := by
  induction ps with
  | nil => simp [pyJoin, partsCost, pyLen]
  | cons x t ih =>
    cases t with
    | nil => simp [pyJoin, partsCost]
    | cons y t2 =>
      rw [show pyJoin "\n\n" (x :: y :: t2) =
          x ++ "\n\n" ++ pyJoin "\n\n" (y :: t2) from rfl]
      rw [strLen_append, strLen_append]
      have hc : partsCost (x :: y :: t2) =
          (pyLen x + 2) + partsCost (y :: t2) := by
        unfold partsCost
        rw [List.map_cons, List.sum_cons]
      rw [hc]
      have hsep : pyLen "\n\n" = 2 := rfl
      omega

/-! ### Claim C8 -/

/-- Per-file non-content overhead allowance: the binary placeholder, the
filename header, the truncation marker, the omission marker, and one
`\n\n` separator. -/
def file_overhead (f : FileInfo) : Nat :=
  pyLen (binary_placeholder (f.name.getD default_file_name)
    (pyExt (f.content.getD ""))) +
  pyLen (file_header (f.name.getD default_file_name)) +
  pyLen (trunc_marker (pyLen (f.content.getD ""))) +
  pyLen omit_marker + 2

theorem handle_files_loop_cost (fs : List FileInfo) :
    ∀ (parts : List String) (total : Nat),
      partsCost (handle_files_loop fs parts total) ≤
        partsCost parts + (MAX_CONTENT_SIZE - total) +
          (fs.map file_overhead).sum := by
  induction fs with
  | nil =>
    intro parts total
    unfold handle_files_loop
    simp only [List.map_nil, List.sum_nil]
    omega
  | cons f rest ih =>
    intro parts total
    have hsum : ((f :: rest).map file_overhead).sum =
        file_overhead f + (rest.map file_overhead).sum := by
      rw [List.map_cons, List.sum_cons]
    have hov : file_overhead f =
        pyLen (binary_placeholder (f.name.getD default_file_name)
          (pyExt (f.content.getD ""))) +
        pyLen (file_header (f.name.getD default_file_name)) +
        pyLen (trunc_marker (pyLen (f.content.getD ""))) +
        pyLen omit_marker + 2 := rfl
    unfold handle_files_loop
    dsimp only
    by_cases h1 : f.content.getD "" = ""
    · rw [if_pos h1]
      have h := ih parts total
      omega
    · rw [if_neg h1]
      by_cases h2 : pyStartsWith (f.content.getD "") binary_marker = true
      · rw [if_pos h2]
        have h := ih (parts ++ [binary_placeholder
          (f.name.getD default_file_name) (pyExt (f.content.getD ""))])
          (total + 100)
        rw [partsCost_append_one] at h
        omega
      · rw [if_neg h2]
        by_cases h3 : pyLen (f.content.getD "") > MAX_CONTENT_SIZE
        · simp only [if_pos h3]
          have hT : pyLen (pyTake (f.content.getD "") MAX_CONTENT_SIZE) ≤
              MAX_CONTENT_SIZE := pyTake_le _ _
          by_cases h4 : total + MAX_CONTENT_SIZE > MAX_CONTENT_SIZE
          · rw [if_pos h4]
            by_cases h5 : MAX_CONTENT_SIZE - total > 0
            · rw [if_pos h5, partsCost_append_one]
              have hT2 : pyLen (pyTake (pyTake (f.content.getD "")
                  MAX_CONTENT_SIZE ++ trunc_marker (pyLen (f.content.getD "")))
                  (MAX_CONTENT_SIZE - total)) ≤ MAX_CONTENT_SIZE - total :=
                pyTake_le _ _
              rw [strLen_append, strLen_append]
              omega
            · rw [if_neg h5]
              omega
          · rw [if_neg h4]
            have h := ih (parts ++ [file_header (f.name.getD default_file_name)
              ++ (pyTake (f.content.getD "") MAX_CONTENT_SIZE ++
                trunc_marker (pyLen (f.content.getD "")))])
              (total + MAX_CONTENT_SIZE)
            rw [partsCost_append_one, strLen_append, strLen_append] at h
            omega
        · simp only [if_neg h3]
          by_cases h4 : total + pyLen (f.content.getD "") > MAX_CONTENT_SIZE
          · rw [if_pos h4]
            by_cases h5 : MAX_CONTENT_SIZE - total > 0
            · rw [if_pos h5, partsCost_append_one]
              have hT2 : pyLen (pyTake (f.content.getD "")
                  (MAX_CONTENT_SIZE - total)) ≤ MAX_CONTENT_SIZE - total :=
                pyTake_le _ _
              rw [strLen_append, strLen_append]
              omega
            · rw [if_neg h5]
              omega
          · rw [if_neg h4]
            have h := ih (parts ++ [file_header (f.name.getD default_file_name)
              ++ f.content.getD ""]) (total + pyLen (f.content.getD ""))
            rw [partsCost_append_one, strLen_append] at h
            omega

theorem handle_files_single_oversized (name content : String)
    (hb : pyStartsWith content binary_marker = false)
    (hne : content ≠ "") (hlen : pyLen content > MAX_CONTENT_SIZE) :
    handle_files (some [FileInfo.mk (some name) (some content)]) =
      (pyStrip (file_header name ++ (pyTake content MAX_CONTENT_SIZE ++
        trunc_marker (pyLen content))), true) := by
  have hloop : handle_files_loop [FileInfo.mk (some name) (some content)] [] 0
      = [file_header name ++ (pyTake content MAX_CONTENT_SIZE ++
          trunc_marker (pyLen content))] := by
    unfold handle_files_loop
    dsimp only
    simp only [Option.getD_some]
    rw [if_neg hne, if_neg (by simp [hb]), if_pos hlen]
    simp only [if_pos hlen]
    rw [if_neg (by omega)]
    rfl
  unfold handle_files
  dsimp only
  rw [hloop, if_neg (by simp), if_neg (by simp)]
  rfl

theorem handle_files_two_break (n1 c1 n2 c2 : String)
    (hb1 : pyStartsWith c1 binary_marker = false) (hne1 : c1 ≠ "")
    (hb2 : pyStartsWith c2 binary_marker = false) (hne2 : c2 ≠ "")
    (hl1 : pyLen c1 < MAX_CONTENT_SIZE)
    (hl2 : pyLen c2 ≤ MAX_CONTENT_SIZE)
    (hsum : pyLen c1 + pyLen c2 > MAX_CONTENT_SIZE) :
    handle_files (some [FileInfo.mk (some n1) (some c1),
      FileInfo.mk (some n2) (some c2)]) =
      (pyStrip (pyJoin "\n\n" [file_header n1 ++ c1,
        file_header n2 ++ pyTake c2 (MAX_CONTENT_SIZE - pyLen c1) ++
          omit_marker]), true) := by
  have hloop : handle_files_loop [FileInfo.mk (some n1) (some c1),
      FileInfo.mk (some n2) (some c2)] [] 0 =
      [file_header n1 ++ c1,
        file_header n2 ++ pyTake c2 (MAX_CONTENT_SIZE - pyLen c1) ++
          omit_marker] := by
    unfold handle_files_loop
    dsimp only
    simp only [Option.getD_some]
    rw [if_neg hne1, if_neg (by simp [hb1])]
    simp only [if_neg (show ¬pyLen c1 > MAX_CONTENT_SIZE by omega)]
    rw [if_neg (show ¬(0 + pyLen c1 > MAX_CONTENT_SIZE) by omega)]
    unfold handle_files_loop
    dsimp only
    simp only [Option.getD_some]
    rw [if_neg hne2, if_neg (by simp [hb2])]
    simp only [if_neg (show ¬pyLen c2 > MAX_CONTENT_SIZE by omega)]
    rw [if_pos (show 0 + pyLen c1 + pyLen c2 > MAX_CONTENT_SIZE by omega),
      if_pos (show MAX_CONTENT_SIZE - (0 + pyLen c1) > 0 by omega)]
    simp [Nat.zero_add]
  unfold handle_files
  dsimp only
  rw [hloop, if_neg (by simp), if_neg (by simp)]

/-- C8 (amended): (i) for every file list the returned blob's length is
at most the aggregate cap plus the per-file header/placeholder/marker/
separator overhead; (ii) a text file beyond the per-file cap is
truncated to the cap with a marker appended stating its original
character count; (iii) when a file exceeds the remaining aggregate
budget with the budget still positive, it is cut to the remaining
budget and the omission marker is appended; but when the budget is
exhausted exactly (remaining = 0) the remaining files are dropped with
no marker, so a blob from inputs beyond the cap need not contain any
truncation or omission marker. -/
theorem claim_C8 :
    (∀ fs : List FileInfo, pyLen (handle_files (some fs)).1 ≤
      MAX_CONTENT_SIZE + (fs.map file_overhead).sum) ∧
    (∀ name content : String, pyStartsWith content binary_marker = false →
      content ≠ "" → pyLen content > MAX_CONTENT_SIZE →
      handle_files (some [FileInfo.mk (some name) (some content)]) =
        (pyStrip (file_header name ++ (pyTake content MAX_CONTENT_SIZE ++
          trunc_marker (pyLen content))), true)) ∧
    (∀ n1 c1 n2 c2 : String, pyStartsWith c1 binary_marker = false →
      c1 ≠ "" → pyStartsWith c2 binary_marker = false → c2 ≠ "" →
      pyLen c1 < MAX_CONTENT_SIZE → pyLen c2 ≤ MAX_CONTENT_SIZE →
      pyLen c1 + pyLen c2 > MAX_CONTENT_SIZE →
      handle_files (some [FileInfo.mk (some n1) (some c1),
        FileInfo.mk (some n2) (some c2)]) =
        (pyStrip (pyJoin "\n\n" [file_header n1 ++ c1,
          file_header n2 ++ pyTake c2 (MAX_CONTENT_SIZE - pyLen c1) ++
            omit_marker]), true)) := by
  refine ⟨?_, ?_, ?_⟩
  · intro fs
    unfold handle_files
    dsimp only
    by_cases hfs : fs = []
    · rw [if_pos hfs]
      exact Nat.zero_le _
    · rw [if_neg hfs]
      by_cases hp : handle_files_loop fs [] 0 = []
      · rw [if_pos hp]
        exact Nat.zero_le _
      · rw [if_neg hp]
        calc pyLen (pyStrip (pyJoin "\n\n" (handle_files_loop fs [] 0)))
            ≤ pyLen (pyJoin "\n\n" (handle_files_loop fs [] 0)) :=
              pyStrip_le _
          _ ≤ partsCost (handle_files_loop fs [] 0) :=
              pyJoin_le_partsCost _
          _ ≤ partsCost [] + (MAX_CONTENT_SIZE - 0) +
              (fs.map file_overhead).sum := handle_files_loop_cost fs [] 0
          _ ≤ MAX_CONTENT_SIZE + (fs.map file_overhead).sum := by
              have hz : partsCost [] = 0 := rfl
              omega
  · exact handle_files_single_oversized
  · exact handle_files_two_break

/-- The placeholder recorded for a file descriptor treated as binary. -/
def placeholder_for (f : FileInfo) : String :=
  binary_placeholder (f.name.getD default_file_name)
    (pyExt (f.content.getD ""))

theorem handle_files_loop_replicate_binary (b : FileInfo)
    (hb1 : b.content.getD "" ≠ "")
    (hb2 : pyStartsWith (b.content.getD "") binary_marker = true) (n : Nat) :
    ∀ (rest : List FileInfo) (parts : List String) (total : Nat),
      handle_files_loop (List.replicate n b ++ rest) parts total =
        handle_files_loop rest
          (parts ++ List.replicate n (placeholder_for b))
          (total + 100 * n) := by
  induction n with
  | zero =>
    intro rest parts total
    simp [List.replicate]
  | succ k ih =>
    intro rest parts total
    rw [List.replicate_succ, List.cons_append]
    simp only [handle_files_loop]
    rw [if_neg hb1, if_pos hb2, ih]
    congr 1
    · rw [List.replicate_succ, List.append_assoc, List.singleton_append]
      rfl
    · omega

/-- 87 `q` characters, payload padding of the C8 counterexample file. -/
def qs87 : String := String.mk (List.replicate 87 'q')

/-- A 101-character binary-marker file (empty recorded extension). -/
def c8_bin_file : FileInfo :=
  FileInfo.mk (some "b") (some ("[BINARY_FILE::" ++ qs87))

/-- A one-character text file. -/
def c8_text_file : FileInfo := FileInfo.mk (some "t") (some "x")

/-- 2000 binary files (weighted at 100 each, reaching the aggregate cap
exactly) followed by one text file. -/
def c8_input : List FileInfo :=
  List.replicate 2000 c8_bin_file ++ [c8_text_file]

/-- Combined size of the supplied file contents. -/
def combined_content_size (fs : List FileInfo) : Nat :=
  (fs.map (fun f => pyLen (f.content.getD ""))).sum

theorem c8_loop_eval : handle_files_loop c8_input [] 0 =
    List.replicate 2000 (binary_placeholder "b" "") := by
  have hb1 : c8_bin_file.content.getD "" ≠ "" := by decide
  have hb2 : pyStartsWith (c8_bin_file.content.getD "") binary_marker =
      true := by decide
  have hph : placeholder_for c8_bin_file = binary_placeholder "b" "" := by
    decide
  rw [show c8_input = List.replicate 2000 c8_bin_file ++ [c8_text_file]
      from rfl,
    handle_files_loop_replicate_binary c8_bin_file hb1 hb2 2000
      [c8_text_file] [] 0, hph, List.nil_append]
  show handle_files_loop [c8_text_file]
    (List.replicate 2000 (binary_placeholder "b" "")) 200000 =
    List.replicate 2000 (binary_placeholder "b" "")
  simp only [handle_files_loop, c8_text_file]
  simp only [Option.getD_some]
  rw [if_neg (by decide), if_neg (by decide)]
  simp only [if_neg (show ¬pyLen "x" > MAX_CONTENT_SIZE by decide)]
  rw [if_pos (show 200000 + pyLen "x" > MAX_CONTENT_SIZE by decide),
    if_neg (show ¬MAX_CONTENT_SIZE - 200000 > 0 by decide)]

theorem c8_handle_files_eval : handle_files (some c8_input) =
    (pyStrip (pyJoin "\n\n"
      (List.replicate 2000 (binary_placeholder "b" ""))), true) := by
  have h1 : c8_input ≠ [] := by
    intro h
    have hl := congrArg List.length h
    rw [show c8_input = List.replicate 2000 c8_bin_file ++ [c8_text_file]
        from rfl, List.length_append, List.length_replicate] at hl
    simp at hl
  have h2 : List.replicate 2000 (binary_placeholder "b" "") ≠ [] :=
    List.ne_nil_of_length_pos (by rw [List.length_replicate]; omega)
  unfold handle_files
  dsimp only
  rw [if_neg h1, c8_loop_eval, if_neg h2]

/-- C8 counterexample: 2000 binary-marker files (each weighted at 100,
reaching the aggregate cap exactly) followed by a text file.  The
combined content size exceeds the cap, the text file is dropped with
`remaining = 0`, and the returned blob contains neither the truncation
marker (`已截断`) nor the omission marker (`未包含`), refuting the
claimed marker presence. -/
theorem claim_C8_counterexample :
    combined_content_size c8_input > MAX_CONTENT_SIZE ∧
    (handle_files (some c8_input)).2 = true ∧
    pyContains (handle_files (some c8_input)).1 "已截断" = false ∧
    pyContains (handle_files (some c8_input)).1 "未包含" = false := by
  have habsent : ∀ c : Char, c ∉ (binary_placeholder "b" "").toList →
      c ∉ "\n\n".toList →
      c ∉ (handle_files (some c8_input)).1.toList := by
    intro c hph hsep hmem
    rw [c8_handle_files_eval] at hmem
    have h2 := mem_pyStrip c
      (pyJoin "\n\n" (List.replicate 2000 (binary_placeholder "b" ""))) hmem
    rcases mem_pyJoin c "\n\n"
      (List.replicate 2000 (binary_placeholder "b" "")) h2 with
      ⟨p, hp, hcp⟩ | h3
    · rw [List.eq_of_mem_replicate hp] at hcp
      exact hph hcp
    · exact hsep h3
  refine ⟨?_, ?_, ?_, ?_⟩
  · have hsize : combined_content_size c8_input = 2000 * 101 + 1 := by
      unfold combined_content_size c8_input
      rw [List.map_append, List.sum_append, List.map_replicate,
        List.sum_replicate]
      have h101 : pyLen (c8_bin_file.content.getD "") = 101 := by
        show pyLen ("[BINARY_FILE::" ++ qs87) = 101
        rw [strLen_append]
        have h87 : pyLen qs87 = 87 := by
          rw [show qs87 = String.mk (List.replicate 87 'q') from rfl,
            pyLen_mk, List.length_replicate]
        rw [h87]
        decide
      rw [h101]
      simp [smul_eq_mul]
      decide
    rw [hsize]
    decide
  · rw [c8_handle_files_eval]
  · exact pyContains_false_of_not_mem _ _ '已' (by decide)
      (habsent '已' (by decide) (by decide))
  · exact pyContains_false_of_not_mem _ _ '未' (by decide)
      (habsent '未' (by decide) (by decide))

/-- C8 amended-claim witness: a single 200001-character text file is
truncated to the cap with the marker recording its original size. -/
theorem claim_C8_witness :
    handle_files (some [FileInfo.mk (some "big.txt")
        (some (String.mk (List.replicate 200001 'a')))]) =
      (pyStrip (file_header "big.txt" ++
        (pyTake (String.mk (List.replicate 200001 'a')) MAX_CONTENT_SIZE ++
          trunc_marker (pyLen (String.mk (List.replicate 200001 'a'))))),
        true) :=
  claim_C8.2.1 "big.txt" (String.mk (List.replicate 200001 'a'))
    (by decide) (by decide)
    (by rw [pyLen_mk, List.length_replicate]; decide)

/-! ### Claim C9 -/

theorem handle_files_loop_ne_nil (fs : List FileInfo) :
    ∀ (parts : List String) (total : Nat), parts ≠ [] →
      handle_files_loop fs parts total ≠ [] := by
  induction fs with
  | nil =>
    intro parts total h
    exact h
  | cons f rest ih =>
    intro parts total h
    unfold handle_files_loop
    dsimp only
    by_cases h1 : f.content.getD "" = ""
    · rw [if_pos h1]
      exact ih parts total h
    · rw [if_neg h1]
      by_cases h2 : pyStartsWith (f.content.getD "") binary_marker = true
      · rw [if_pos h2]
        exact ih _ _ (by simp)
      · rw [if_neg h2]
        split
        · split
          · split
            · simp
            · exact h
          · exact ih _ _ (by simp)
        · split
          · split
            · simp
            · exact h
          · exact ih _ _ (by simp)

theorem handle_files_loop_nil_iff (fs : List FileInfo) :
    handle_files_loop fs [] 0 = [] ↔ ∀ f ∈ fs, f.content.getD "" = "" := by
  induction fs with
  | nil =>
    unfold handle_files_loop
    simp
  | cons f rest ih =>
    unfold handle_files_loop
    dsimp only
    by_cases h1 : f.content.getD "" = ""
    · rw [if_pos h1, ih]
      constructor
      · intro hall g hg
        rcases List.mem_cons.mp hg with hgf | hgr
        · rw [hgf]
          exact h1
        · exact hall g hgr
      · intro hall g hg
        exact hall g (List.mem_cons_of_mem f hg)
    · rw [if_neg h1]
      have hr : ¬∀ g ∈ f :: rest, g.content.getD "" = "" := by
        intro hall
        exact h1 (hall f (List.mem_cons_self f rest))
      by_cases h2 : pyStartsWith (f.content.getD "") binary_marker = true
      · rw [if_pos h2]
        exact iff_of_false (handle_files_loop_ne_nil rest _ _ (by simp)) hr
      · rw [if_neg h2]
        have hno : ¬(0 + (if pyLen (f.content.getD "") > MAX_CONTENT_SIZE
            then MAX_CONTENT_SIZE else pyLen (f.content.getD "")) >
            MAX_CONTENT_SIZE) := by
          split
          · omega
          · rename_i h3
            omega
        rw [if_neg hno]
        exact iff_of_false (handle_files_loop_ne_nil rest _ _ (by simp)) hr

theorem handle_files_loop_all_binary (fs : List FileInfo)
    (h : ∀ f ∈ fs, f.content.getD "" = "" ∨
      pyStartsWith (f.content.getD "") binary_marker = true) :
    ∀ (parts : List String) (total : Nat),
      handle_files_loop fs parts total =
        parts ++ (fs.filter (fun f => f.content.getD "" ≠ "")).map
          placeholder_for := by
  induction fs with
  | nil =>
    intro parts total
    unfold handle_files_loop
    simp
  | cons f rest ih =>
    intro parts total
    have hf := h f (List.mem_cons_self f rest)
    have hrest : ∀ g ∈ rest, g.content.getD "" = "" ∨
        pyStartsWith (g.content.getD "") binary_marker = true :=
      fun g hg => h g (List.mem_cons_of_mem f hg)
    unfold handle_files_loop
    dsimp only
    by_cases h1 : f.content.getD "" = ""
    · rw [if_pos h1, ih hrest parts total]
      have hfil : (f :: rest).filter (fun f => f.content.getD "" ≠ "") =
          rest.filter (fun f => f.content.getD "" ≠ "") := by
        rw [List.filter_cons]
        simp [h1]
      rw [hfil]
    · rw [if_neg h1]
      have h2 : pyStartsWith (f.content.getD "") binary_marker = true := by
        rcases hf with hf | hf
        · exact absurd hf h1
        · exact hf
      rw [if_pos h2, ih hrest _ _]
      have hfil : (f :: rest).filter (fun f => f.content.getD "" ≠ "") =
          f :: rest.filter (fun f => f.content.getD "" ≠ "") := by
        rw [List.filter_cons]
        simp [h1]
      rw [hfil, List.map_cons, List.append_assoc, List.singleton_append]
      rfl

/-- C9 (amended): the ingestor returns `("", false)` exactly when no
file has non-empty content (usable text); and as long as the aggregate
cap has not been exhausted by an earlier text file — in particular for
attachment lists containing only binary-marker or empty payloads —
every non-empty binary-marker file is represented in the blob by its
explanatory resupply-as-text placeholder, in order and none dropped:
the blob is exactly the stripped `\n\n`-join of the per-file
placeholders.  (A binary file reached after a text file exhausts the
cap is dropped silently: see the counterexample.) -/
theorem claim_C9 :
    (∀ fs : List FileInfo, handle_files (some fs) = ("", false) ↔
      ∀ f ∈ fs, f.content.getD "" = "") ∧
    (∀ fs : List FileInfo,
      (∀ f ∈ fs, f.content.getD "" = "" ∨
        pyStartsWith (f.content.getD "") binary_marker = true) →
      (∀ f ∈ fs, f.content.getD "" ≠ "" →
        placeholder_for f ∈
          (fs.filter (fun f => f.content.getD "" ≠ "")).map
            placeholder_for) ∧
      ((∃ f ∈ fs, f.content.getD "" ≠ "") →
        handle_files (some fs) =
          (pyStrip (pyJoin "\n\n"
            ((fs.filter (fun f => f.content.getD "" ≠ "")).map
              placeholder_for)), true))) := by
  constructor
  · intro fs
    unfold handle_files
    dsimp only
    by_cases hfs : fs = []
    · rw [if_pos hfs]
      exact iff_of_true rfl (by simp [hfs])
    · rw [if_neg hfs]
      by_cases hp : handle_files_loop fs [] 0 = []
      · rw [if_pos hp]
        exact iff_of_true rfl ((handle_files_loop_nil_iff fs).mp hp)
      · rw [if_neg hp]
        refine iff_of_false (by simp) ?_
        intro hall
        exact hp ((handle_files_loop_nil_iff fs).mpr hall)
  · intro fs h
    constructor
    · intro f hf hne
      exact List.mem_map_of_mem placeholder_for
        (List.mem_filter.mpr ⟨hf, by simpa using hne⟩)
    · rintro ⟨f0, hf0, hne0⟩
      unfold handle_files
      dsimp only
      rw [if_neg (List.ne_nil_of_mem hf0),
        handle_files_loop_all_binary fs h [] 0, List.nil_append]
      rw [if_neg ?_]
      intro hmap
      rw [List.map_eq_nil_iff] at hmap
      have : f0 ∈ fs.filter (fun f => f.content.getD "" ≠ "") :=
        List.mem_filter.mpr ⟨hf0, by simpa using hne0⟩
      rw [hmap] at this
      simp at this

/-- A binary-marker file with an empty recorded extension. -/
def c9_bin_file : FileInfo := FileInfo.mk (some "b") (some "[BINARY_FILE:")

/-- The binary-marker file that the counterexample shows being dropped
(its name `Z` appears nowhere else in the input). -/
def c9_dropped_file : FileInfo :=
  FileInfo.mk (some "Z") (some "[BINARY_FILE:")

/-- 2000 binary files reaching the aggregate cap exactly, one text file
triggering the `remaining = 0` break, then a further binary file. -/
def c9_input : List FileInfo :=
  List.replicate 2000 c9_bin_file ++ [c8_text_file, c9_dropped_file]

theorem c9_handle_files_eval : handle_files (some c9_input) =
    (pyStrip (pyJoin "\n\n"
      (List.replicate 2000 (binary_placeholder "b" ""))), true) := by
  have hb1 : c9_bin_file.content.getD "" ≠ "" := by decide
  have hb2 : pyStartsWith (c9_bin_file.content.getD "") binary_marker =
      true := by decide
  have hph : placeholder_for c9_bin_file = binary_placeholder "b" "" := by
    decide
  have hloop : handle_files_loop c9_input [] 0 =
      List.replicate 2000 (binary_placeholder "b" "") := by
    rw [show c9_input = List.replicate 2000 c9_bin_file ++
        [c8_text_file, c9_dropped_file] from rfl,
      handle_files_loop_replicate_binary c9_bin_file hb1 hb2 2000
        [c8_text_file, c9_dropped_file] [] 0, hph, List.nil_append]
    show handle_files_loop [c8_text_file, c9_dropped_file]
      (List.replicate 2000 (binary_placeholder "b" "")) 200000 =
      List.replicate 2000 (binary_placeholder "b" "")
    simp only [handle_files_loop, c8_text_file]
    simp only [Option.getD_some]
    rw [if_neg (by decide), if_neg (by decide)]
    simp only [if_neg (show ¬pyLen "x" > MAX_CONTENT_SIZE by decide)]
    rw [if_pos (show 200000 + pyLen "x" > MAX_CONTENT_SIZE by decide),
      if_neg (show ¬MAX_CONTENT_SIZE - 200000 > 0 by decide)]
  have h1 : c9_input ≠ [] := by
    intro h
    have hl := congrArg List.length h
    rw [show c9_input = List.replicate 2000 c9_bin_file ++
        [c8_text_file, c9_dropped_file] from rfl, List.length_append,
      List.length_replicate] at hl
    simp at hl
  have h2 : List.replicate 2000 (binary_placeholder "b" "") ≠ [] :=
    List.ne_nil_of_length_pos (by rw [List.length_replicate]; omega)
  unfold handle_files
  dsimp only
  rw [if_neg h1, hloop, if_neg h2]

/-- C9 counterexample: the final binary-marker file (named `Z`) of
`c9_input` is unparseable binary content, yet the returned blob does
not mention it at all (no character `Z` occurs in the blob): it was
silently dropped because an earlier text file exhausted the aggregate
cap, refuting "every binary-marker file is represented by a
placeholder". -/
theorem claim_C9_counterexample :
    c9_dropped_file ∈ c9_input ∧
    pyStartsWith (c9_dropped_file.content.getD "") binary_marker = true ∧
    (handle_files (some c9_input)).2 = true ∧
    pyContains (handle_files (some c9_input)).1 "Z" = false := by
  refine ⟨?_, by decide, ?_, ?_⟩
  · rw [show c9_input = List.replicate 2000 c9_bin_file ++
        [c8_text_file, c9_dropped_file] from rfl]
    exact List.mem_append_right _ (by simp)
  · rw [c9_handle_files_eval]
  · refine pyContains_false_of_not_mem _ _ 'Z' (by decide) ?_
    intro hmem
    rw [c9_handle_files_eval] at hmem
    have h2 := mem_pyStrip 'Z'
      (pyJoin "\n\n" (List.replicate 2000 (binary_placeholder "b" ""))) hmem
    rcases mem_pyJoin 'Z' "\n\n"
      (List.replicate 2000 (binary_placeholder "b" "")) h2 with
      ⟨p, hp, hcp⟩ | h3
    · rw [List.eq_of_mem_replicate hp] at hcp
      exact absurd hcp (by decide)
    · exact absurd h3 (by decide)

/-- C9 amended-claim witness: one parseable-as-binary file plus one
empty descriptor; the blob is exactly the stripped placeholder list. -/
theorem claim_C9_witness :
    handle_files (some [c9_bin_file, FileInfo.mk none none]) =
      (pyStrip (pyJoin "\n\n"
        (([c9_bin_file, FileInfo.mk none none].filter
          (fun f => f.content.getD "" ≠ "")).map placeholder_for)), true) :=
  (claim_C9.2 [c9_bin_file, FileInfo.mk none none] (by decide)).2
    ⟨c9_bin_file, by simp, by decide⟩
